import Mathlib

/-!
Verification development for the AeroBoarEngine frame scheduler, transfer
engine and asynchronous asset pipeline.  Each C++ subsystem is shallowly
embedded as executable Lean definitions; device (Vulkan) calls are recorded
as explicit event traces, with fallible calls driven by result oracles.
-/

namespace AeroBoar

/-! ## Device-level vocabulary -/

/-- The subset of `VkResult` values the renderer distinguishes. -/
inductive VkResult where
  | success
  | suboptimalKHR
  | errorOutOfDateKHR
  | errorOther
deriving DecidableEq, Repr

/-- CPU-observable status of a Vulkan fence.  `pending` means a submission
referencing the fence is in flight and the GPU will eventually signal it. -/
inductive FenceSt where
  | unsignaled
  | pending
  | signaled
deriving DecidableEq, Repr

/-- `vkWaitForFences` with a `UINT64_MAX` timeout: a signaled fence returns at
once, a pending fence blocks until the GPU signals it, and a fence that is
unsignaled with no submission in flight blocks forever (`none`). -/
def vkWaitForFences : FenceSt → Option FenceSt
  | .signaled => some .signaled
  | .pending => some .signaled
  | .unsignaled => none

/-- `VK_PIPELINE_STAGE_COLOR_ATTACHMENT_OUTPUT_BIT`. -/
def VK_PIPELINE_STAGE_COLOR_ATTACHMENT_OUTPUT_BIT : Nat := 0x400

/-- `VK_QUEUE_GRAPHICS_BIT`. -/
def VK_QUEUE_GRAPHICS_BIT : Nat := 1

/-- `VK_QUEUE_TRANSFER_BIT`. -/
def VK_QUEUE_TRANSFER_BIT : Nat := 4

/-- `std::vector::resize(n, d)`: keeps the first `n` elements and fills any
newly created slots with `d`. -/
def vectorResize {α : Type} (l : List α) (n : Nat) (d : α) : List α :=
  l.take n ++ List.replicate (n - l.length) d

/-- Outcome of running an embedded renderer routine: normal return, a thrown
`std::runtime_error`, or blocking forever on a wait that cannot complete. -/
inductive StepResult (α : Type) where
  | ok (a : α)
  | fatal (msg : String)
  | stuck
deriving Repr, DecidableEq

/-! ## Frame scheduler (`Renderer`, `src/unnamed/part_001`)

Fence handles are identified with their frame slot (`m_inFlightFences[i]` is
slot `i`); semaphores, framebuffers, image views and the swapchain are
identified by `Nat` handles drawn from a fresh-handle counter. -/

/-- `MAX_FRAMES_IN_FLIGHT` (`renderer.hpp`). -/
def MAX_FRAMES_IN_FLIGHT : Nat := 2

/-- A device call made by the renderer, recorded in program order. -/
inductive RenderEvent where
  | waitFence (slot : Nat)
  | acquireNextImage (sem : Nat)
  | waitImageFence (slot : Nat)
  | resetFence (slot : Nat)
  | glfwWaitEvents
  | deviceWaitIdle
  | destroyFramebuffer (h : Nat)
  | destroyImageView (h : Nat)
  | destroySwapchain (h : Nat)
  | createSwapchain (h : Nat)
  | createImageView (h : Nat)
  | createFramebuffer (h : Nat)
  | destroySemaphore (h : Nat)
  | createSemaphore (h : Nat)
  | queueSubmit (waitSem : Nat) (waitStage : Nat) (cmdSlot : Nat)
      (signalSem : Nat) (fenceSlot : Nat)
  | queuePresent (waitSem : Nat) (imageIndex : Nat)
deriving DecidableEq, Repr

/-- The renderer state touched by `BeginFrame`/`EndFrame`/`RecreateSwapchain`. -/
structure Renderer where
  currentFrame : Nat
  currentImageIndex : Nat
  /-- Status of `m_inFlightFences[i]`, one per frame slot. -/
  inFlightFences : List FenceSt
  /-- `m_imagesInFlight`: per swapchain image, the frame slot whose in-flight
  fence last used the image (`VK_NULL_HANDLE` = `none`). -/
  imagesInFlight : List (Option Nat)
  /-- Handles of `m_imageAvailableSemaphores`, one per frame slot. -/
  imageAvailableSemaphores : List Nat
  /-- Handles of `m_imageFinishedSemaphores`, one per swapchain image. -/
  imageFinishedSemaphores : List Nat
  swapchainFramebuffers : List Nat
  swapchainImageViews : List Nat
  swapchain : Nat
  nextHandle : Nat
deriving DecidableEq, Repr

/-- Oracle for one `RecreateSwapchain` call: the sizes successively reported
by `glfwGetFramebufferSize`, whether
`CreateSwapchain`/`CreateImageViews`/`CreateFramebuffers` succeed, the image
count of the new swapchain, and the index of the first per-image semaphore
creation that fails (if any). -/
structure RecreateEnv where
  framebufferSizes : List (Nat × Nat)
  createOk : Bool
  newImageCount : Nat
  semFailAt : Option Nat
deriving DecidableEq, Repr

/-- The `glfwGetFramebufferSize`/`glfwWaitEvents` loop: the first reported
size with both dimensions nonzero, or `none` if the window never reports one. -/
def firstNonzeroSize : List (Nat × Nat) → Option (Nat × Nat)
  | [] => none
  | (w, h) :: rest =>
      if w = 0 || h = 0 then firstNonzeroSize rest else some (w, h)

/-- `Renderer::RecreateSwapchain` (part_001 lines 603-637).  Blocks on the
size loop, waits for the device to go idle (every pending fence signals),
destroys framebuffers / image views / swapchain, rebuilds them, resizes
`m_imagesInFlight` to the new image count filling new slots with null,
destroys all old per-image semaphores and creates one fresh semaphore per new
swapchain image. -/
def RecreateSwapchain (env : RecreateEnv) (r : Renderer) :
    StepResult (Renderer × List RenderEvent) :=
  match firstNonzeroSize env.framebufferSizes with
  | none => .stuck
  | some _ =>
    let fences := r.inFlightFences.map
      (fun f => if f = FenceSt.pending then FenceSt.signaled else f)
    let evCleanup : List RenderEvent :=
      RenderEvent.deviceWaitIdle ::
        (r.swapchainFramebuffers.map RenderEvent.destroyFramebuffer ++
         r.swapchainImageViews.map RenderEvent.destroyImageView ++
         [RenderEvent.destroySwapchain r.swapchain])
    if env.createOk then
      let n := env.newImageCount
      let newSwapchain := r.nextHandle
      let newViews := (List.range n).map (fun i => r.nextHandle + 1 + i)
      let newFbs := (List.range n).map (fun i => r.nextHandle + 1 + n + i)
      let semBase := r.nextHandle + 1 + 2 * n
      let evCreate : List RenderEvent :=
        RenderEvent.createSwapchain newSwapchain ::
          (newViews.map RenderEvent.createImageView ++
           newFbs.map RenderEvent.createFramebuffer)
      let newImagesInFlight := vectorResize r.imagesInFlight n none
      let evDestroySem :=
        r.imageFinishedSemaphores.map RenderEvent.destroySemaphore
      match env.semFailAt with
      | some k =>
          if k < n then .fatal "Failed to create image finished semaphore"
          else
            .ok ({ r with
                    inFlightFences := fences
                    imagesInFlight := newImagesInFlight
                    imageFinishedSemaphores :=
                      (List.range n).map (fun i => semBase + i)
                    swapchainFramebuffers := newFbs
                    swapchainImageViews := newViews
                    swapchain := newSwapchain
                    nextHandle := semBase + n },
                evCleanup ++ evCreate ++ evDestroySem ++
                  (List.range n).map (fun i => RenderEvent.createSemaphore (semBase + i)))
      | none =>
          .ok ({ r with
                  inFlightFences := fences
                  imagesInFlight := newImagesInFlight
                  imageFinishedSemaphores :=
                    (List.range n).map (fun i => semBase + i)
                  swapchainFramebuffers := newFbs
                  swapchainImageViews := newViews
                  swapchain := newSwapchain
                  nextHandle := semBase + n },
              evCleanup ++ evCreate ++ evDestroySem ++
                (List.range n).map (fun i => RenderEvent.createSemaphore (semBase + i)))
    else .fatal "Failed to recreate swapchain"

/-- Oracle for one `BeginFrame` call: the `vkAcquireNextImageKHR` result, the
acquired image index, and the oracle of the recreation taken on the
out-of-date path. -/
structure AcquireEnv where
  acquireResult : VkResult
  acquiredImage : Nat
  recreateEnv : RecreateEnv
deriving DecidableEq, Repr

/-- `Renderer::BeginFrame` (part_001 lines 639-659): wait on the current
frame's in-flight fence, acquire an image; on `VK_ERROR_OUT_OF_DATE_KHR`
recreate the swapchain and return without touching the fence; on another
failure throw; otherwise wait on the acquired image's tracked fence when it
is non-null, mark the image as used by this frame, and reset the frame's own
fence. -/
def BeginFrame (env : AcquireEnv) (r : Renderer) :
    StepResult (Renderer × List RenderEvent) :=
  match vkWaitForFences (r.inFlightFences.getD r.currentFrame FenceSt.unsignaled) with
  | none => .stuck
  | some f0 =>
    let r1 := { r with inFlightFences := r.inFlightFences.set r.currentFrame f0 }
    let ev0 : List RenderEvent :=
      [RenderEvent.waitFence r.currentFrame,
       RenderEvent.acquireNextImage (r.imageAvailableSemaphores.getD r.currentFrame 0)]
    if env.acquireResult = VkResult.errorOutOfDateKHR then
      match RecreateSwapchain env.recreateEnv r1 with
      | .ok (r2, ev1) => .ok (r2, ev0 ++ ev1)
      | .fatal m => .fatal m
      | .stuck => .stuck
    else if env.acquireResult ≠ VkResult.success ∧
            env.acquireResult ≠ VkResult.suboptimalKHR then
      .fatal "Failed to acquire swapchain image"
    else
      let r2 := { r1 with currentImageIndex := env.acquiredImage }
      match r2.imagesInFlight.getD env.acquiredImage none with
      | some slot =>
          match vkWaitForFences (r2.inFlightFences.getD slot FenceSt.unsignaled) with
          | none => .stuck
          | some fs =>
            let r3 := { r2 with inFlightFences := r2.inFlightFences.set slot fs }
            let r4 := { r3 with
                imagesInFlight :=
                  r3.imagesInFlight.set env.acquiredImage (some r.currentFrame)
                inFlightFences :=
                  r3.inFlightFences.set r.currentFrame FenceSt.unsignaled }
            .ok (r4, ev0 ++ [RenderEvent.waitImageFence slot,
                             RenderEvent.resetFence r.currentFrame])
      | none =>
          let r4 := { r2 with
              imagesInFlight :=
                r2.imagesInFlight.set env.acquiredImage (some r.currentFrame)
              inFlightFences :=
                r2.inFlightFences.set r.currentFrame FenceSt.unsignaled }
          .ok (r4, ev0 ++ [RenderEvent.resetFence r.currentFrame])

/-- Oracle for one `EndFrame` call: whether `vkQueueSubmit` succeeds, the
`vkQueuePresentKHR` result, and the oracle of the recreation taken on the
stale/suboptimal path. -/
structure PresentEnv where
  submitOk : Bool
  presentResult : VkResult
  recreateEnv : RecreateEnv
deriving DecidableEq, Repr

/-- `Renderer::EndFrame` (part_001 lines 661-698): submit the frame's command
buffer waiting on `m_imageAvailableSemaphores[m_currentFrame]` at the
color-attachment-output stage, signaling
`m_imageFinishedSemaphores[m_currentImageIndex]` and guarded by
`m_inFlightFences[m_currentFrame]`; present waiting on that same per-image
semaphore; recreate on a stale/suboptimal present result, throw on any other
failure; finally advance `m_currentFrame` modulo `MAX_FRAMES_IN_FLIGHT`. -/
def EndFrame (env : PresentEnv) (r : Renderer) :
    StepResult (Renderer × List RenderEvent) :=
  let waitSem := r.imageAvailableSemaphores.getD r.currentFrame 0
  let signalSem := r.imageFinishedSemaphores.getD r.currentImageIndex 0
  let submitEv := RenderEvent.queueSubmit waitSem
    VK_PIPELINE_STAGE_COLOR_ATTACHMENT_OUTPUT_BIT r.currentFrame signalSem
    r.currentFrame
  if env.submitOk then
    let r1 := { r with
        inFlightFences := r.inFlightFences.set r.currentFrame FenceSt.pending }
    let presentEv := RenderEvent.queuePresent signalSem r.currentImageIndex
    if env.presentResult = VkResult.errorOutOfDateKHR ∨
       env.presentResult = VkResult.suboptimalKHR then
      match RecreateSwapchain env.recreateEnv r1 with
      | .ok (r2, ev2) =>
          .ok ({ r2 with currentFrame := (r2.currentFrame + 1) % MAX_FRAMES_IN_FLIGHT },
               [submitEv, presentEv] ++ ev2)
      | .fatal m => .fatal m
      | .stuck => .stuck
    else if env.presentResult ≠ VkResult.success then
      .fatal "Failed to present swapchain image"
    else
      .ok ({ r1 with currentFrame := (r1.currentFrame + 1) % MAX_FRAMES_IN_FLIGHT },
           [submitEv, presentEv])
  else .fatal "Failed to submit draw command buffer"

/-! ## Transfer engine (`TransferManager`, `src/unnamed/part_001`)

The engine owns one command buffer and one fence; every public operation
takes the engine mutex.  Device calls are recorded as `TransferEvent`s and
fallible calls are driven by `Bool` oracles. -/

/-- Layouts appearing in `UploadImageData`'s barriers. -/
inductive ImageLayout where
  | undefined
  | transferDstOptimal
  | shaderReadOnlyOptimal
deriving DecidableEq, Repr

/-- Recording state of the engine's single command buffer. -/
inductive CmdSt where
  | initial
  | recording
  | executable
deriving DecidableEq, Repr

/-- A call made by the transfer engine, recorded in program order. -/
inductive TransferEvent where
  | lockMutex
  | unlockMutex
  | logError (msg : String)
  | resetCommandBuffer
  | beginCommandBuffer
  | vmaCreateBuffer (size : Nat) (hostAccessSequentialWrite : Bool)
  | vmaCreateImage
  | vmaMapMemory
  | memcpyBytes (size : Nat)
  | vmaUnmapMemory
  | cmdPipelineBarrier (oldLayout newLayout : ImageLayout)
  | cmdCopyBufferToImage
  | endCommandBuffer
  | queueSubmitTransfer
  | waitTransferFence
  | resetTransferFence
  | vmaDestroyBuffer
deriving DecidableEq, Repr

/-- Shared engine state: the single fence and the single command buffer. -/
structure TransferState where
  fence : FenceSt
  cmdBuf : CmdSt
deriving DecidableEq, Repr

/-- Engine state right after `TransferManager` initialization: the fence is
created unsignaled (`fenceInfo.flags = 0`). -/
def TransferState.init : TransferState :=
  { fence := FenceSt.unsignaled, cmdBuf := CmdSt.initial }

/-- `TransferManager::WaitForCompletion` (part_001 lines 1104-1107): block on
the fence (forever if it can never signal), then reset it. -/
def WaitForCompletion (st : TransferState) :
    Option (TransferState × List TransferEvent) :=
  match vkWaitForFences st.fence with
  | none => none
  | some _ =>
      some ({ st with fence := FenceSt.unsignaled },
        [TransferEvent.waitTransferFence, TransferEvent.resetTransferFence])

/-- `TransferManager::SubmitCommandBuffer` (part_001 lines 1089-1102): submit
the command buffer with the engine fence; on success the fence becomes
pending and `WaitForCompletion` runs; on failure log and return false. -/
def SubmitCommandBuffer (submitOk : Bool) (st : TransferState) :
    Option (Bool × TransferState × List TransferEvent) :=
  if submitOk then
    match WaitForCompletion { st with fence := FenceSt.pending } with
    | none => none
    | some (st2, ev) =>
        some (true, st2, TransferEvent.queueSubmitTransfer :: ev)
  else
    some (false, st,
      [TransferEvent.queueSubmitTransfer,
       TransferEvent.logError "Failed to submit transfer command buffer"])

/-- `TransferManager::CreateBuffer` (part_001 lines 935-946). -/
def CreateBuffer (createOk : Bool) (size : Nat) (st : TransferState) :
    Bool × TransferState × List TransferEvent :=
  if createOk then
    (true, st,
      [TransferEvent.lockMutex, TransferEvent.vmaCreateBuffer size false,
       TransferEvent.unlockMutex])
  else
    (false, st,
      [TransferEvent.lockMutex, TransferEvent.vmaCreateBuffer size false,
       TransferEvent.logError "Failed to create buffer with VMA",
       TransferEvent.unlockMutex])

/-- `TransferManager::CreateImage` (part_001 lines 966-977). -/
def CreateImage (createOk : Bool) (st : TransferState) :
    Bool × TransferState × List TransferEvent :=
  if createOk then
    (true, st,
      [TransferEvent.lockMutex, TransferEvent.vmaCreateImage,
       TransferEvent.unlockMutex])
  else
    (false, st,
      [TransferEvent.lockMutex, TransferEvent.vmaCreateImage,
       TransferEvent.logError "Failed to create image with VMA",
       TransferEvent.unlockMutex])

/-- `TransferManager::UploadBufferData` (part_001 lines 948-964): under the
mutex, map the allocation's host-visible memory, `memcpy` `dataSize` bytes of
the caller's data into it, unmap, return true.  `alloc` is the allocation's
byte content, `data` the caller's bytes. -/
def UploadBufferData (mapOk : Bool) (alloc data : List Nat) (dataSize : Nat)
    (st : TransferState) :
    Bool × List Nat × TransferState × List TransferEvent :=
  if mapOk then
    (true, data.take dataSize ++ alloc.drop dataSize, st,
      [TransferEvent.lockMutex, TransferEvent.vmaMapMemory,
       TransferEvent.memcpyBytes dataSize, TransferEvent.vmaUnmapMemory,
       TransferEvent.unlockMutex])
  else
    (false, alloc, st,
      [TransferEvent.lockMutex, TransferEvent.vmaMapMemory,
       TransferEvent.logError "Failed to map buffer memory",
       TransferEvent.unlockMutex])

/-- Oracle for one `UploadImageData` call: results of
`vkBeginCommandBuffer`, staging-buffer creation, `vmaMapMemory`,
`vkEndCommandBuffer` and `vkQueueSubmit`. -/
structure UploadImageEnv where
  beginOk : Bool
  stagingCreateOk : Bool
  mapOk : Bool
  endOk : Bool
  submitOk : Bool
deriving DecidableEq, Repr

/-- `TransferManager::UploadImageData` (part_001 lines 979-1087): under the
mutex, reset and begin the command buffer, create a host-visible staging
buffer of `dataSize` bytes, copy the caller's data into it, record a
barrier undefined→transfer-dst, a buffer-to-image copy and a barrier
transfer-dst→shader-read-only, end the buffer, submit on the transfer queue
and block on the fence; the staging buffer is destroyed on every path after
its creation.  Returns `none` only if a fence wait could block forever. -/
def UploadImageData (env : UploadImageEnv) (dataSize : Nat) (st : TransferState) :
    Option (Bool × TransferState × List TransferEvent) :=
  let st0 := { st with cmdBuf := CmdSt.initial }
  let evHead := [TransferEvent.lockMutex, TransferEvent.resetCommandBuffer,
                 TransferEvent.beginCommandBuffer]
  if env.beginOk then
    let st1 := { st0 with cmdBuf := CmdSt.recording }
    let evStaging := evHead ++ [TransferEvent.vmaCreateBuffer dataSize true]
    if env.stagingCreateOk then
      if env.mapOk then
        let evRecorded := evStaging ++
          [TransferEvent.vmaMapMemory, TransferEvent.memcpyBytes dataSize,
           TransferEvent.vmaUnmapMemory,
           TransferEvent.cmdPipelineBarrier ImageLayout.undefined
             ImageLayout.transferDstOptimal,
           TransferEvent.cmdCopyBufferToImage,
           TransferEvent.cmdPipelineBarrier ImageLayout.transferDstOptimal
             ImageLayout.shaderReadOnlyOptimal,
           TransferEvent.endCommandBuffer]
        if env.endOk then
          let st2 := { st1 with cmdBuf := CmdSt.executable }
          match SubmitCommandBuffer env.submitOk st2 with
          | none => none
          | some (true, st3, evSubmit) =>
              some (true, st3,
                evRecorded ++ evSubmit ++
                  [TransferEvent.vmaDestroyBuffer, TransferEvent.unlockMutex])
          | some (false, st3, evSubmit) =>
              some (false, st3,
                evRecorded ++ evSubmit ++
                  [TransferEvent.vmaDestroyBuffer, TransferEvent.unlockMutex])
        else
          some (false, st1,
            evRecorded ++
              [TransferEvent.logError "Failed to end command buffer for image upload",
               TransferEvent.vmaDestroyBuffer, TransferEvent.unlockMutex])
      else
        some (false, { st1 with cmdBuf := CmdSt.executable },
          evStaging ++
            [TransferEvent.vmaMapMemory,
             TransferEvent.logError "Failed to map staging buffer memory",
             TransferEvent.vmaDestroyBuffer, TransferEvent.endCommandBuffer,
             TransferEvent.unlockMutex])
    else
      some (false, { st1 with cmdBuf := CmdSt.executable },
        evStaging ++
          [TransferEvent.logError "Failed to create staging buffer",
           TransferEvent.endCommandBuffer, TransferEvent.unlockMutex])
  else
    some (false, st0,
      evHead ++
        [TransferEvent.logError "Failed to begin command buffer for image upload",
         TransferEvent.unlockMutex])

/-- `TransferManager::CreateTransferQueue` (part_001 lines 832-865): pick the
first queue family with the transfer bit, falling back to the first family
with the graphics bit; `none` if neither exists.  `families` holds each
family's `queueFlags`. -/
def findTransferQueueFamilyIndex (families : List Nat) : Option Nat :=
  match families.findIdx? (fun flags => flags &&& VK_QUEUE_TRANSFER_BIT ≠ 0) with
  | some i => some i
  | none => families.findIdx? (fun flags => flags &&& VK_QUEUE_GRAPHICS_BIT ≠ 0)

/-- One public transfer-engine operation together with its result oracle. -/
inductive TransferOp where
  | createBufferOp (createOk : Bool) (size : Nat)
  | uploadBufferOp (mapOk : Bool) (dataSize : Nat)
  | createImageOp (createOk : Bool)
  | uploadImageOp (env : UploadImageEnv) (dataSize : Nat)
deriving DecidableEq, Repr

/-- Run one transfer-engine operation against the shared engine state. -/
def runTransferOp (op : TransferOp) (st : TransferState) :
    Option (Bool × TransferState × List TransferEvent) :=
  match op with
  | .createBufferOp ok size => some (CreateBuffer ok size st)
  | .uploadBufferOp ok size =>
      match UploadBufferData ok [] [] size st with
      | (b, _, st2, ev) => some (b, st2, ev)
  | .createImageOp ok => some (CreateImage ok st)
  | .uploadImageOp env size => UploadImageData env size st

/-! ## glTF index decoding (`GltfLoader::ProcessIndices`,
`src/src/assets/gltf_loader.cpp` lines 790-819) -/

/-- `TINYGLTF_COMPONENT_TYPE_UNSIGNED_BYTE`. -/
def TINYGLTF_COMPONENT_TYPE_UNSIGNED_BYTE : Nat := 5121

/-- `TINYGLTF_COMPONENT_TYPE_UNSIGNED_SHORT`. -/
def TINYGLTF_COMPONENT_TYPE_UNSIGNED_SHORT : Nat := 5123

/-- `TINYGLTF_COMPONENT_TYPE_UNSIGNED_INT`. -/
def TINYGLTF_COMPONENT_TYPE_UNSIGNED_INT : Nat := 5125

/-- Read one byte (`uint8_t`) from the buffer. -/
def readU8 (bytes : List Nat) (off : Nat) : Nat := bytes.getD off 0

/-- Read a little-endian `uint16_t` from the buffer. -/
def readU16le (bytes : List Nat) (off : Nat) : Nat :=
  bytes.getD off 0 + 256 * bytes.getD (off + 1) 0

/-- Read a little-endian `uint32_t` from the buffer. -/
def readU32le (bytes : List Nat) (off : Nat) : Nat :=
  bytes.getD off 0 + 256 * bytes.getD (off + 1) 0 +
    65536 * bytes.getD (off + 2) 0 + 16777216 * bytes.getD (off + 3) 0

/-- The index accessor as handed over by tinygltf: component type, element
count, the accessor and buffer-view byte offsets, and the raw bytes of the
backing buffer. -/
structure IndexAccessorView where
  componentType : Nat
  count : Nat
  accessorByteOffset : Nat
  bufferViewByteOffset : Nat
  bytes : List Nat
deriving DecidableEq, Repr

/-- `GltfLoader::ProcessIndices`: an empty result when the primitive has no
index accessor; otherwise widen each unsigned 8-, 16- or 32-bit element to
`uint32_t`; any other component type leaves the resized array zero-filled. -/
def ProcessIndices (primitiveIndices : Int) (acc : IndexAccessorView) : List Nat :=
  if primitiveIndices < 0 then []
  else
    let off := acc.bufferViewByteOffset + acc.accessorByteOffset
    if acc.componentType = TINYGLTF_COMPONENT_TYPE_UNSIGNED_SHORT then
      (List.range acc.count).map (fun i => readU16le acc.bytes (off + 2 * i))
    else if acc.componentType = TINYGLTF_COMPONENT_TYPE_UNSIGNED_INT then
      (List.range acc.count).map (fun i => readU32le acc.bytes (off + 4 * i))
    else if acc.componentType = TINYGLTF_COMPONENT_TYPE_UNSIGNED_BYTE then
      (List.range acc.count).map (fun i => readU8 acc.bytes (off + i))
    else List.replicate acc.count 0

/-- Little-endian byte encoding of a `uint16_t`. -/
def encodeU16le (v : Nat) : List Nat := [v % 256, v / 256 % 256]

/-- Little-endian byte encoding of a `uint32_t`. -/
def encodeU32le (v : Nat) : List Nat :=
  [v % 256, v / 256 % 256, v / 65536 % 256, v / 16777216 % 256]

/-! ## Shutdown idempotency (`GltfLoader`, `AssetThreadPool`,
`TransferManager`) -/

/-- A device call made during teardown. -/
inductive GpuCall where
  | destroyBuffer (h : Nat)
  | freeMemory (h : Nat)
  | destroyImage (h : Nat)
  | destroyImageView (h : Nat)
  | destroySampler (h : Nat)
  | waitFence (h : Nat)
  | destroyFence (h : Nat)
  | destroyCommandPool (h : Nat)
deriving DecidableEq, Repr

/-- `TransferManager`'s teardown-relevant members (`VK_NULL_HANDLE` = `none`). -/
structure TMHandles where
  fence : Option Nat
  commandPool : Option Nat
  transferQueue : Option Nat
deriving DecidableEq, Repr

/-- `TransferManager::Shutdown` (part_001 lines 817-830): wait on and destroy
the fence if non-null, destroy the command pool if non-null, null both, null
the queue handle. -/
def TransferManagerShutdown (s : TMHandles) : TMHandles × List GpuCall :=
  let p1 := match s.fence with
    | some h => ({ s with fence := none }, [GpuCall.waitFence h, GpuCall.destroyFence h])
    | none => (s, ([] : List GpuCall))
  let p2 := match p1.1.commandPool with
    | some h => ({ p1.1 with commandPool := none }, p1.2 ++ [GpuCall.destroyCommandPool h])
    | none => p1
  ({ p2.1 with transferQueue := none }, p2.2)

/-- `AssetThreadPool`'s teardown-relevant members: the atomic stop flag and
whether the workers have been joined. -/
structure AssetThreadPoolState where
  stop : Bool
  workersJoined : Bool
deriving DecidableEq, Repr

/-- `AssetThreadPool::Shutdown` (gltf_loader.cpp lines 55-69): under the
queue mutex, return immediately if the stop flag is already set; otherwise
set it, wake all workers and join them.  No device calls are made. -/
def AssetThreadPoolShutdown (s : AssetThreadPoolState) :
    AssetThreadPoolState × List GpuCall :=
  if s.stop then (s, [])
  else ({ stop := true, workersJoined := true }, [])

/-- GPU handles owned by one `Mesh`. -/
structure MeshRes where
  vertexBuffer : Option Nat
  indexBuffer : Option Nat
  vertexBufferAllocation : Option Nat
  indexBufferAllocation : Option Nat
deriving DecidableEq, Repr

/-- GPU handles owned by one `Material`. -/
structure MaterialRes where
  baseColorTexture : Option Nat
  baseColorTextureView : Option Nat
  baseColorSampler : Option Nat
  baseColorTextureAllocation : Option Nat
deriving DecidableEq, Repr

/-- The device resources of one cached `Model`. -/
structure ModelRes where
  meshes : List MeshRes
  materials : List MaterialRes
deriving DecidableEq, Repr

/-- Teardown calls for one mesh, in the order of gltf_loader.cpp 123-140. -/
def meshDestroyCalls (m : MeshRes) : List GpuCall :=
  (match m.vertexBuffer with | some h => [GpuCall.destroyBuffer h] | none => []) ++
  (match m.indexBuffer with | some h => [GpuCall.destroyBuffer h] | none => []) ++
  (match m.vertexBufferAllocation with | some h => [GpuCall.freeMemory h] | none => []) ++
  (match m.indexBufferAllocation with | some h => [GpuCall.freeMemory h] | none => [])

/-- Teardown calls for one material, in the order of gltf_loader.cpp 142-159. -/
def materialDestroyCalls (m : MaterialRes) : List GpuCall :=
  (match m.baseColorTexture with | some h => [GpuCall.destroyImage h] | none => []) ++
  (match m.baseColorTextureView with | some h => [GpuCall.destroyImageView h] | none => []) ++
  (match m.baseColorSampler with | some h => [GpuCall.destroySampler h] | none => []) ++
  (match m.baseColorTextureAllocation with | some h => [GpuCall.freeMemory h] | none => [])

/-- Teardown calls for one cached model. -/
def modelDestroyCalls (m : ModelRes) : List GpuCall :=
  (m.meshes.map meshDestroyCalls).flatten ++ (m.materials.map materialDestroyCalls).flatten

/-- `GltfLoader`'s teardown-relevant members. -/
structure GltfLoaderState where
  shutdownFlag : Bool
  threadPool : Option AssetThreadPoolState
  transferManager : Option TMHandles
  loadedModels : List (String × ModelRes)
deriving DecidableEq, Repr

/-- `GltfLoader::Shutdown` (gltf_loader.cpp lines 100-176): return at once if
`m_shutdown` is already set; otherwise set it, shut down and drop the thread
pool, destroy every cached model's device resources and clear the cache
under the models mutex, then shut down and drop the transfer manager. -/
def GltfLoaderShutdown (s : GltfLoaderState) : GltfLoaderState × List GpuCall :=
  if s.shutdownFlag then (s, [])
  else
    let modelCalls := (s.loadedModels.map (fun p => modelDestroyCalls p.2)).flatten
    let tmCalls := match s.transferManager with
      | some tm => (TransferManagerShutdown tm).2
      | none => []
    ({ shutdownFlag := true, threadPool := none, transferManager := none,
       loadedModels := [] },
     modelCalls ++ tmCalls)

/-! ## Asset pipeline synchronous load (`GltfLoader::LoadModel`,
gltf_loader.cpp lines 184-220, with `ParseGltfFile` lines 406-470,
`LoadMaterials` lines 472-507, `LoadMeshes` lines 509-589) -/

/-- A call made during a model load, recorded in program order.  Indices
refer to the material/mesh position in the glTF model. -/
inductive LoadEvent where
  | lockModelsMutex
  | unlockModelsMutex
  | parseFile (path : String)
  | createTextureImage (materialIdx : Nat)
  | uploadTextureData (materialIdx : Nat)
  | createTextureView (materialIdx : Nat)
  | createTextureSampler (materialIdx : Nat)
  | createVertexBuffer (meshIdx : Nat)
  | uploadVertexData (meshIdx : Nat)
  | createIndexBuffer (meshIdx : Nat)
  | uploadIndexData (meshIdx : Nat)
  | cacheInsert (path : String)
deriving DecidableEq, Repr

/-- One glTF material as parsed, with the result oracles of the device calls
`CreateTextureFromImage` makes for it. -/
structure GltfMaterialSrc where
  hasBaseColorTexture : Bool
  createImageOk : Bool
  uploadImageOk : Bool
  createViewOk : Bool
  createSamplerOk : Bool
deriving DecidableEq, Repr

/-- One glTF mesh as parsed (first primitive only), with the result oracles
of the buffer calls `LoadMeshes` makes for it. -/
structure GltfMeshSrc where
  hasPrimitives : Bool
  vertexCount : Nat
  indexCount : Nat
  createVertexOk : Bool
  uploadVertexOk : Bool
  createIndexOk : Bool
  uploadIndexOk : Bool
deriving DecidableEq, Repr

/-- A glTF file as seen by `ParseGltfFile`: whether tinygltf loads it, and
the parsed materials and meshes. -/
structure GltfFileSrc where
  parseOk : Bool
  materials : List GltfMaterialSrc
  meshes : List GltfMeshSrc
deriving DecidableEq, Repr

/-- The CPU-side model value produced by a load. -/
structure ParsedModel where
  name : String
  isLoaded : Bool
deriving DecidableEq, Repr

/-- `AssetLoadResult`. -/
structure AssetLoadResult where
  model : Option ParsedModel
  success : Bool
  errorMessage : String
deriving DecidableEq, Repr

/-- `GltfLoader::CreateTextureFromImage` (gltf_loader.cpp lines 638-713) for
material `i`: create the image, upload the placeholder pixel, create the
view, create the sampler, failing fast. -/
def CreateTextureFromImage (i : Nat) (m : GltfMaterialSrc) :
    Bool × List LoadEvent :=
  if !m.createImageOk then (false, [LoadEvent.createTextureImage i])
  else if !m.uploadImageOk then
    (false, [LoadEvent.createTextureImage i, LoadEvent.uploadTextureData i])
  else if !m.createViewOk then
    (false, [LoadEvent.createTextureImage i, LoadEvent.uploadTextureData i,
             LoadEvent.createTextureView i])
  else if !m.createSamplerOk then
    (false, [LoadEvent.createTextureImage i, LoadEvent.uploadTextureData i,
             LoadEvent.createTextureView i, LoadEvent.createTextureSampler i])
  else
    (true, [LoadEvent.createTextureImage i, LoadEvent.uploadTextureData i,
            LoadEvent.createTextureView i, LoadEvent.createTextureSampler i])

/-- `GltfLoader::LoadMaterials` from material index `i` on: materials with a
base-color texture get a texture via `CreateTextureFromImage`; the loop
aborts on the first failure. -/
def LoadMaterialsFrom (i : Nat) : List GltfMaterialSrc → Bool × List LoadEvent
  | [] => (true, [])
  | m :: rest =>
      if m.hasBaseColorTexture then
        match CreateTextureFromImage i m with
        | (false, ev) => (false, ev)
        | (true, ev) =>
            match LoadMaterialsFrom (i + 1) rest with
            | (b, ev2) => (b, ev ++ ev2)
      else LoadMaterialsFrom (i + 1) rest

/-- `GltfLoader::LoadMeshes` from mesh index `i` on: meshes without
primitives, vertices or indices are skipped; otherwise the vertex and index
buffers are created and uploaded through the transfer engine, aborting on
the first failure. -/
def LoadMeshesFrom (i : Nat) : List GltfMeshSrc → Bool × List LoadEvent
  | [] => (true, [])
  | m :: rest =>
      if !m.hasPrimitives || m.vertexCount = 0 || m.indexCount = 0 then
        LoadMeshesFrom (i + 1) rest
      else if !m.createVertexOk then (false, [LoadEvent.createVertexBuffer i])
      else if !m.uploadVertexOk then
        (false, [LoadEvent.createVertexBuffer i, LoadEvent.uploadVertexData i])
      else if !m.createIndexOk then
        (false, [LoadEvent.createVertexBuffer i, LoadEvent.uploadVertexData i,
                 LoadEvent.createIndexBuffer i])
      else if !m.uploadIndexOk then
        (false, [LoadEvent.createVertexBuffer i, LoadEvent.uploadVertexData i,
                 LoadEvent.createIndexBuffer i, LoadEvent.uploadIndexData i])
      else
        match LoadMeshesFrom (i + 1) rest with
        | (b, ev2) =>
            (b, [LoadEvent.createVertexBuffer i, LoadEvent.uploadVertexData i,
                 LoadEvent.createIndexBuffer i, LoadEvent.uploadIndexData i] ++ ev2)

/-- `GltfLoader::ParseGltfFile` (gltf_loader.cpp lines 406-470): load the
file with tinygltf, then load materials, meshes and nodes, failing fast; on
success the model is marked loaded. -/
def ParseGltfFile (path : String) (src : GltfFileSrc) :
    AssetLoadResult × List LoadEvent :=
  if !src.parseOk then
    ({ model := some { name := path, isLoaded := false }, success := false,
       errorMessage := "Failed to load glTF file: " ++ path },
     [LoadEvent.parseFile path])
  else
    match LoadMaterialsFrom 0 src.materials with
    | (false, evM) =>
        ({ model := some { name := path, isLoaded := false }, success := false,
           errorMessage := "Failed to load materials" },
         LoadEvent.parseFile path :: evM)
    | (true, evM) =>
        match LoadMeshesFrom 0 src.meshes with
        | (false, evMe) =>
            ({ model := some { name := path, isLoaded := false },
               success := false, errorMessage := "Failed to load meshes" },
             LoadEvent.parseFile path :: (evM ++ evMe))
        | (true, evMe) =>
            ({ model := some { name := path, isLoaded := true },
               success := true, errorMessage := "" },
             LoadEvent.parseFile path :: (evM ++ evMe))

/-- `std::unordered_map::find` on the name-keyed model cache. -/
def lookupCache (c : List (String × ParsedModel)) (k : String) :
    Option ParsedModel :=
  (c.find? (fun p => p.1 = k)).map Prod.snd

/-- `GltfLoader::LoadModel` (gltf_loader.cpp lines 184-220): under the models
mutex, return the cached model on a hit; on a miss parse and upload via
`ParseGltfFile`, return the failure unchanged if it failed, otherwise insert
the model into the cache under the models mutex and return success. -/
def LoadModel (cache : List (String × ParsedModel)) (path : String)
    (src : GltfFileSrc) :
    AssetLoadResult × List (String × ParsedModel) × List LoadEvent :=
  match lookupCache cache path with
  | some m =>
      ({ model := some m, success := true, errorMessage := "" }, cache,
       [LoadEvent.lockModelsMutex, LoadEvent.unlockModelsMutex])
  | none =>
      match ParseGltfFile path src with
      | (r, ev) =>
          if r.success then
            (r, (path, r.model.getD { name := path, isLoaded := false }) :: cache,
             ([LoadEvent.lockModelsMutex, LoadEvent.unlockModelsMutex] ++ ev) ++
               [LoadEvent.lockModelsMutex, LoadEvent.cacheInsert path,
                LoadEvent.unlockModelsMutex])
          else
            (r, cache,
             [LoadEvent.lockModelsMutex, LoadEvent.unlockModelsMutex] ++ ev)

/-! ## Asset thread pool as a transition system
(`AssetThreadPool`, gltf_loader.cpp lines 13-69)

Worker threads are modelled positionally; a task is identified by the value
of the enqueue counter at the time `Enqueue` accepted it. -/

/-- Status of one worker thread. -/
inductive WStatus where
  | idle
  | busy (task : Nat)
  | exited
deriving DecidableEq, Repr

/-- The pool's shared state plus ghost history (`enqueued`, `executed`). -/
structure Pool where
  stop : Bool
  queue : List Nat
  workers : List WStatus
  enqueued : List Nat
  executed : List Nat
  nextId : Nat
deriving DecidableEq, Repr

/-- The pool as constructed with `numThreads` workers. -/
def Pool.init (numThreads : Nat) : Pool :=
  { stop := false, queue := [], workers := List.replicate numThreads WStatus.idle,
    enqueued := [], executed := [], nextId := 0 }

/-- One atomic step of the pool.  `enqueue` succeeds only while the stop flag
is clear (gltf_loader.cpp line 46); a worker pops a task only when the queue
is nonempty (line 22); a worker returns from its loop only when the stop
flag is set and the queue is empty (line 21); `Shutdown` sets the stop flag
(line 61). -/
inductive PoolStep : Pool → Pool → Prop where
  | enqueue (s : Pool) (h : s.stop = false) :
      PoolStep s { s with queue := s.queue ++ [s.nextId],
                          enqueued := s.enqueued ++ [s.nextId],
                          nextId := s.nextId + 1 }
  | pick (s : Pool) (w1 w2 : List WStatus) (t : Nat) (rest : List Nat)
      (hw : s.workers = w1 ++ WStatus.idle :: w2)
      (hq : s.queue = t :: rest) :
      PoolStep s { s with workers := w1 ++ WStatus.busy t :: w2, queue := rest }
  | finish (s : Pool) (w1 w2 : List WStatus) (t : Nat)
      (hw : s.workers = w1 ++ WStatus.busy t :: w2) :
      PoolStep s { s with workers := w1 ++ WStatus.idle :: w2,
                          executed := s.executed ++ [t] }
  | exit (s : Pool) (w1 w2 : List WStatus)
      (hw : s.workers = w1 ++ WStatus.idle :: w2)
      (hstop : s.stop = true) (hq : s.queue = []) :
      PoolStep s { s with workers := w1 ++ WStatus.exited :: w2 }
  | setStop (s : Pool) : PoolStep s { s with stop := true }

/-- States reachable by interleaved pool activity. -/
def PoolReachable (numThreads : Nat) (s : Pool) : Prop :=
  Relation.ReflTransGen PoolStep (Pool.init numThreads) s

/-- The tasks currently being executed by some worker. -/
def busyTasks (ws : List WStatus) : List Nat :=
  ws.filterMap (fun w => match w with | WStatus.busy t => some t | _ => none)

/-- Inductive invariant of the pool: task ids are the consecutive enqueue
counter values; the worker count is fixed; every enqueued task is in exactly
one place (pending queue, some worker's hands, or the executed history);
a worker can only have exited after the stop flag was set; and once every
worker of a nonempty pool has exited the queue is empty. -/
def PoolInvariant (n : Nat) (s : Pool) : Prop :=
  s.enqueued = List.range s.nextId ∧
  s.workers.length = n ∧
  (∀ t, s.enqueued.count t =
    s.queue.count t + (busyTasks s.workers).count t + s.executed.count t) ∧
  ((∃ w ∈ s.workers, w = WStatus.exited) → s.stop = true) ∧
  (s.workers ≠ [] → (∀ w ∈ s.workers, w = WStatus.exited) → s.queue = [])

/-- Semantics of one renderer device call on the per-slot fence states: a
completed blocking wait leaves the fence signaled, a reset leaves it
unsignaled, a submission makes it pending, and a device-idle wait signals
every pending fence. -/
def applyFenceEvent (fences : List FenceSt) : RenderEvent → List FenceSt
  | RenderEvent.waitFence k => fences.set k FenceSt.signaled
  | RenderEvent.waitImageFence k => fences.set k FenceSt.signaled
  | RenderEvent.resetFence k => fences.set k FenceSt.unsignaled
  | RenderEvent.queueSubmit _ _ _ _ f => fences.set f FenceSt.pending
  | RenderEvent.deviceWaitIdle =>
      fences.map (fun f => if f = FenceSt.pending then FenceSt.signaled else f)
  | _ => fences

/-- Fence states after a trace of renderer device calls. -/
def applyFenceEvents (fences : List FenceSt) (l : List RenderEvent) : List FenceSt :=
  l.foldl applyFenceEvent fences

/-- The frame scheduler's invariant at the start of a `BeginFrame`: the frame
index is a valid slot, there is one in-flight fence per slot, every in-flight
fence is signaled or pending (never unsignaled with no submission — the
fences are created with `VK_FENCE_CREATE_SIGNALED_BIT`), and every tracked
per-image fence reference names a valid slot. -/
def RendererInv (r : Renderer) : Prop :=
  r.currentFrame < MAX_FRAMES_IN_FLIGHT ∧
  r.inFlightFences.length = MAX_FRAMES_IN_FLIGHT ∧
  (∀ f ∈ r.inFlightFences, f ≠ FenceSt.unsignaled) ∧
  (∀ s ∈ r.imagesInFlight, ∀ k, s = some k → k < MAX_FRAMES_IN_FLIGHT)

/-- The scheduler's state between `BeginFrame` and `EndFrame`: as
`RendererInv`, except the current frame's own fence may be unsignaled — it
was reset by `BeginFrame` and is re-submitted by `EndFrame`. -/
def RendererMidInv (r : Renderer) : Prop :=
  r.currentFrame < MAX_FRAMES_IN_FLIGHT ∧
  r.inFlightFences.length = MAX_FRAMES_IN_FLIGHT ∧
  (∀ i (hi : i < r.inFlightFences.length), i ≠ r.currentFrame →
    r.inFlightFences[i] ≠ FenceSt.unsignaled) ∧
  (∀ s ∈ r.imagesInFlight, ∀ k, s = some k → k < MAX_FRAMES_IN_FLIGHT)

/-- Validity of one transfer-engine device call against the command buffer's
recording state: `vkBeginCommandBuffer` requires a freshly reset buffer,
recorded commands require an open recording, ending requires a recording,
submission requires an ended (executable) buffer; a reset is always legal
and non-command-buffer calls do not touch the buffer. -/
def cmdStepOk (c : CmdSt) (e : TransferEvent) : Option CmdSt :=
  match e with
  | TransferEvent.resetCommandBuffer => some CmdSt.initial
  | TransferEvent.beginCommandBuffer =>
      if c = CmdSt.initial then some CmdSt.recording else none
  | TransferEvent.cmdPipelineBarrier _ _ =>
      if c = CmdSt.recording then some c else none
  | TransferEvent.cmdCopyBufferToImage =>
      if c = CmdSt.recording then some c else none
  | TransferEvent.endCommandBuffer =>
      if c = CmdSt.recording then some CmdSt.executable else none
  | TransferEvent.queueSubmitTransfer =>
      if c = CmdSt.executable then some c else none
  | _ => some c

/-- Whether a trace of transfer-engine calls is valid starting from command
buffer state `c`. -/
def traceCmdOk (c : CmdSt) : List TransferEvent → Bool
  | [] => true
  | e :: rest =>
      match cmdStepOk c e with
      | some c2 => traceCmdOk c2 rest
      | none => false

/-- Whether every device-call oracle of an operation reports success. -/
def transferOpAllOk : TransferOp → Bool
  | TransferOp.createBufferOp ok _ => ok
  | TransferOp.uploadBufferOp ok _ => ok
  | TransferOp.createImageOp ok => ok
  | TransferOp.uploadImageOp env _ =>
      env.beginOk && env.stagingCreateOk && env.mapOk && env.endOk && env.submitOk

/-! ## Helper lemmas -/

lemma getD_append_shift (pre l : List Nat) (m : Nat) :
    (pre ++ l).getD (pre.length + m) 0 = l.getD m 0 := by
  rw [List.getD_append_right _ _ _ _ (Nat.le_add_right _ _), Nat.add_sub_cancel_left]

lemma readU8_shift (pre l : List Nat) (m : Nat) :
    readU8 (pre ++ l) (pre.length + m) = readU8 l m :=
  getD_append_shift pre l m

lemma readU16le_shift (pre l : List Nat) (m : Nat) :
    readU16le (pre ++ l) (pre.length + m) = readU16le l m := by
  show (pre ++ l).getD (pre.length + m) 0 + 256 * (pre ++ l).getD (pre.length + m + 1) 0 =
    l.getD m 0 + 256 * l.getD (m + 1) 0
  rw [Nat.add_assoc pre.length m 1, getD_append_shift, getD_append_shift]

lemma readU32le_shift (pre l : List Nat) (m : Nat) :
    readU32le (pre ++ l) (pre.length + m) = readU32le l m := by
  show (pre ++ l).getD (pre.length + m) 0 + 256 * (pre ++ l).getD (pre.length + m + 1) 0 +
      65536 * (pre ++ l).getD (pre.length + m + 2) 0 +
      16777216 * (pre ++ l).getD (pre.length + m + 3) 0 =
    l.getD m 0 + 256 * l.getD (m + 1) 0 + 65536 * l.getD (m + 2) 0 +
      16777216 * l.getD (m + 3) 0
  rw [Nat.add_assoc pre.length m 1, Nat.add_assoc pre.length m 2,
    Nat.add_assoc pre.length m 3, getD_append_shift, getD_append_shift,
    getD_append_shift, getD_append_shift]

lemma readU16le_cons2 (a b : Nat) (l : List Nat) (m : Nat) :
    readU16le (a :: b :: l) (m + 2) = readU16le l m := by
  show (a :: b :: l).getD (m + 1 + 1) 0 + 256 * (a :: b :: l).getD (m + 1 + 1 + 1) 0 =
    l.getD m 0 + 256 * l.getD (m + 1) 0
  simp [List.getD_cons_succ]

lemma readU32le_cons4 (a b c d : Nat) (l : List Nat) (m : Nat) :
    readU32le (a :: b :: c :: d :: l) (m + 4) = readU32le l m := by
  show (a :: b :: c :: d :: l).getD (m + 1 + 1 + 1 + 1) 0 +
      256 * (a :: b :: c :: d :: l).getD (m + 1 + 1 + 1 + 1 + 1) 0 +
      65536 * (a :: b :: c :: d :: l).getD (m + 1 + 1 + 1 + 1 + 1 + 1) 0 +
      16777216 * (a :: b :: c :: d :: l).getD (m + 1 + 1 + 1 + 1 + 1 + 1 + 1) 0 =
    l.getD m 0 + 256 * l.getD (m + 1) 0 + 65536 * l.getD (m + 2) 0 +
      16777216 * l.getD (m + 3) 0
  simp [List.getD_cons_succ]

lemma readU16le_flatten (vs : List Nat) (i : Nat)
    (hv : ∀ v ∈ vs, v < 65536) (hi : i < vs.length) :
    readU16le ((vs.map encodeU16le).flatten) (2 * i) = vs.getD i 0 := by
  induction vs generalizing i with
  | nil => simp at hi
  | cons v tl ih =>
      have hflat : ((v :: tl).map encodeU16le).flatten =
          v % 256 :: v / 256 % 256 :: (tl.map encodeU16le).flatten := rfl
      cases i with
      | zero =>
          have hv0 : v < 65536 := hv v (List.mem_cons_self _ _)
          rw [hflat]
          show readU16le (v % 256 :: v / 256 % 256 :: (tl.map encodeU16le).flatten) 0 = v
          simp [readU16le]
          omega
      | succ j =>
          rw [hflat, show 2 * (j + 1) = 2 * j + 2 from by ring, readU16le_cons2,
            List.getD_cons_succ]
          exact ih j (fun x hx => hv x (List.mem_cons_of_mem _ hx))
            (Nat.lt_of_succ_lt_succ hi)

lemma readU32le_flatten (vs : List Nat) (i : Nat)
    (hv : ∀ v ∈ vs, v < 4294967296) (hi : i < vs.length) :
    readU32le ((vs.map encodeU32le).flatten) (4 * i) = vs.getD i 0 := by
  induction vs generalizing i with
  | nil => simp at hi
  | cons v tl ih =>
      have hflat : ((v :: tl).map encodeU32le).flatten =
          v % 256 :: v / 256 % 256 :: v / 65536 % 256 :: v / 16777216 % 256 ::
            (tl.map encodeU32le).flatten := rfl
      cases i with
      | zero =>
          have hv0 : v < 4294967296 := hv v (List.mem_cons_self _ _)
          rw [hflat]
          show readU32le (v % 256 :: v / 256 % 256 :: v / 65536 % 256 ::
            v / 16777216 % 256 :: (tl.map encodeU32le).flatten) 0 = v
          simp [readU32le]
          omega
      | succ j =>
          rw [hflat, show 4 * (j + 1) = 4 * j + 4 from by ring, readU32le_cons4,
            List.getD_cons_succ]
          exact ih j (fun x hx => hv x (List.mem_cons_of_mem _ hx))
            (Nat.lt_of_succ_lt_succ hi)

/-! ## Claim theorems -/

/-- C8: calling `Shutdown` a second time on the asset pipeline
(`GltfLoader`), the asset thread pool (`AssetThreadPool`) or the transfer
engine (`TransferManager`) is a no-op: the second call leaves the state
exactly as the first call left it and performs no GPU (device) calls. -/
theorem C8_second_shutdown_noop :
    (∀ s : GltfLoaderState,
       GltfLoaderShutdown (GltfLoaderShutdown s).1 = ((GltfLoaderShutdown s).1, [])) ∧
    (∀ s : AssetThreadPoolState,
       AssetThreadPoolShutdown (AssetThreadPoolShutdown s).1 =
         ((AssetThreadPoolShutdown s).1, [])) ∧
    (∀ s : TMHandles,
       TransferManagerShutdown (TransferManagerShutdown s).1 =
         ((TransferManagerShutdown s).1, [])) := by
  refine ⟨fun s => ?_, fun s => ?_, fun s => ?_⟩
  · by_cases h : s.shutdownFlag <;> simp [GltfLoaderShutdown, h]
  · by_cases h : s.stop <;> simp [AssetThreadPoolShutdown, h]
  · rcases s with ⟨f, c, q⟩
    cases f <;> cases c <;> rfl

/-- C7: `ProcessIndices` converts an index accessor of unsigned 8-, 16- or
32-bit component width into a 32-bit index array of the same length,
preserving every index value: if the backing buffer bytes at the accessor's
offset encode the value list `vs` in the declared width, the produced array
equals `vs`; and the produced array always has `count` elements. -/
theorem C7_processIndices_preserves_values
    (prim : Int) (acc : IndexAccessorView) (pre vs : List Nat)
    (hprim : 0 ≤ prim)
    (hcount : acc.count = vs.length)
    (hpre : pre.length = acc.bufferViewByteOffset + acc.accessorByteOffset) :
    ((acc.componentType = TINYGLTF_COMPONENT_TYPE_UNSIGNED_BYTE →
        acc.bytes = pre ++ vs → (∀ v ∈ vs, v < 256) →
        ProcessIndices prim acc = vs) ∧
     (acc.componentType = TINYGLTF_COMPONENT_TYPE_UNSIGNED_SHORT →
        acc.bytes = pre ++ (vs.map encodeU16le).flatten →
        (∀ v ∈ vs, v < 65536) →
        ProcessIndices prim acc = vs) ∧
     (acc.componentType = TINYGLTF_COMPONENT_TYPE_UNSIGNED_INT →
        acc.bytes = pre ++ (vs.map encodeU32le).flatten →
        (∀ v ∈ vs, v < 4294967296) →
        ProcessIndices prim acc = vs)) ∧
    (ProcessIndices prim acc).length = acc.count := by
  have hp : ¬ prim < 0 := not_lt.mpr hprim
  constructor
  · refine ⟨fun hct hbytes hv => ?_, fun hct hbytes hv => ?_, fun hct hbytes hv => ?_⟩
    · simp only [ProcessIndices, hct, TINYGLTF_COMPONENT_TYPE_UNSIGNED_BYTE,
        TINYGLTF_COMPONENT_TYPE_UNSIGNED_SHORT, TINYGLTF_COMPONENT_TYPE_UNSIGNED_INT,
        hp, if_false, if_true]
      norm_num
      apply List.ext_getElem (by simpa using hcount)
      intro n h1 h2
      simp only [List.getElem_map, List.getElem_range]
      rw [hbytes, ← hpre, readU8_shift, readU8]
      exact List.getD_eq_getElem vs 0 h2
    · simp only [ProcessIndices, hct, TINYGLTF_COMPONENT_TYPE_UNSIGNED_SHORT,
        hp, if_false, if_true]
      apply List.ext_getElem (by simpa using hcount)
      intro n h1 h2
      simp only [List.getElem_map, List.getElem_range]
      rw [hbytes, ← hpre, readU16le_shift,
        readU16le_flatten vs n hv h2]
      exact List.getD_eq_getElem vs 0 h2
    · simp only [ProcessIndices, hct, TINYGLTF_COMPONENT_TYPE_UNSIGNED_SHORT,
        TINYGLTF_COMPONENT_TYPE_UNSIGNED_INT, hp, if_false, if_true]
      norm_num
      apply List.ext_getElem (by simpa using hcount)
      intro n h1 h2
      simp only [List.getElem_map, List.getElem_range]
      rw [hbytes, ← hpre, readU32le_shift,
        readU32le_flatten vs n hv h2]
      exact List.getD_eq_getElem vs 0 h2
  · by_cases h1 : acc.componentType = 5123 <;>
      by_cases h2 : acc.componentType = 5125 <;>
      by_cases h3 : acc.componentType = 5121 <;>
      simp [ProcessIndices, hp, h1, h2, h3, TINYGLTF_COMPONENT_TYPE_UNSIGNED_BYTE,
        TINYGLTF_COMPONENT_TYPE_UNSIGNED_SHORT, TINYGLTF_COMPONENT_TYPE_UNSIGNED_INT]

/-- C7 witness: an unsigned-short accessor holding `[0,1,2,2,3,0]` produces
the 32-bit index array `[0,1,2,2,3,0]`. -/
theorem C7_processIndices_witness :
    ProcessIndices 0
      { componentType := 5123, count := 6, accessorByteOffset := 0,
        bufferViewByteOffset := 0,
        bytes := (([0, 1, 2, 2, 3, 0] : List Nat).map encodeU16le).flatten } =
      [0, 1, 2, 2, 3, 0] :=
  (C7_processIndices_preserves_values 0
    { componentType := 5123, count := 6, accessorByteOffset := 0,
      bufferViewByteOffset := 0,
      bytes := (([0, 1, 2, 2, 3, 0] : List Nat).map encodeU16le).flatten }
    [] [0, 1, 2, 2, 3, 0] (by decide) rfl rfl).1.2.1 rfl rfl (by decide)

/-- C6: for caller data of size `S = data.length` bytes, a successful
`UploadBufferData` maps the allocation's host-visible memory, performs a
plain CPU copy of exactly `S` bytes, unmaps and returns true — the trace
holds no command-buffer, submission or fence call — and reading the first
`S` bytes of the allocation back through a mapped view yields the uploaded
data byte-identically. -/
theorem C6_uploadBufferData_roundtrip
    (alloc data : List Nat) (st : TransferState)
    (hlen : data.length ≤ alloc.length) :
    UploadBufferData true alloc data data.length st =
      (true, data ++ alloc.drop data.length, st,
        [TransferEvent.lockMutex, TransferEvent.vmaMapMemory,
         TransferEvent.memcpyBytes data.length, TransferEvent.vmaUnmapMemory,
         TransferEvent.unlockMutex]) ∧
    (UploadBufferData true alloc data data.length st).2.1.take data.length =
      data ∧
    (UploadBufferData true alloc data data.length st).2.1.length =
      alloc.length := by
  refine ⟨?_, ?_, ?_⟩
  · simp [UploadBufferData]
  · simp only [UploadBufferData, if_true]
    simp [List.take_left]
  · simp [UploadBufferData]
    omega

/-- C6 witness: uploading the 4 bytes `[9, 8, 7, 6]` into an 8-byte
allocation succeeds and reads back identically. -/
theorem C6_uploadBufferData_witness :
    (UploadBufferData true [0, 0, 0, 0, 0, 0, 0, 0] [9, 8, 7, 6] 4
        TransferState.init).2.1.take 4 = [9, 8, 7, 6] :=
  (C6_uploadBufferData_roundtrip [0, 0, 0, 0, 0, 0, 0, 0] [9, 8, 7, 6]
    TransferState.init (by decide)).2.1

/-- C4: `UploadImageData` runs under the engine mutex; on full success it
resets and begins the command buffer, creates a host-visible staging buffer
of the data size, copies the caller's data into it, records a barrier
undefined→transfer-dst, a buffer-to-image copy and a barrier
transfer-dst→shader-read-only, submits, blocks on the engine fence, and
destroys the staging buffer; on every completed path after staging creation
the staging buffer is destroyed; and the transfer queue family is the first
transfer-capable family, falling back to the first graphics-capable family
when no transfer-capable one exists. -/
theorem C4_uploadImageData_contract (env : UploadImageEnv) (sz : Nat)
    (st : TransferState) :
    (env = ⟨true, true, true, true, true⟩ →
      UploadImageData env sz st =
        some (true, { fence := FenceSt.unsignaled, cmdBuf := CmdSt.executable },
          [TransferEvent.lockMutex, TransferEvent.resetCommandBuffer,
           TransferEvent.beginCommandBuffer, TransferEvent.vmaCreateBuffer sz true,
           TransferEvent.vmaMapMemory, TransferEvent.memcpyBytes sz,
           TransferEvent.vmaUnmapMemory,
           TransferEvent.cmdPipelineBarrier ImageLayout.undefined
             ImageLayout.transferDstOptimal,
           TransferEvent.cmdCopyBufferToImage,
           TransferEvent.cmdPipelineBarrier ImageLayout.transferDstOptimal
             ImageLayout.shaderReadOnlyOptimal,
           TransferEvent.endCommandBuffer, TransferEvent.queueSubmitTransfer,
           TransferEvent.waitTransferFence, TransferEvent.resetTransferFence,
           TransferEvent.vmaDestroyBuffer, TransferEvent.unlockMutex])) ∧
    (env.beginOk = true → env.stagingCreateOk = true →
      ∀ b st2 ev, UploadImageData env sz st = some (b, st2, ev) →
        TransferEvent.vmaDestroyBuffer ∈ ev) ∧
    (∀ b st2 ev, UploadImageData env sz st = some (b, st2, ev) →
      ev.head? = some TransferEvent.lockMutex ∧
      ev.getLast? = some TransferEvent.unlockMutex) ∧
    (∀ families : List Nat,
      ((∃ f ∈ families, f &&& VK_QUEUE_TRANSFER_BIT ≠ 0) →
        ∃ i, findTransferQueueFamilyIndex families = some i ∧
          ∃ hi : i < families.length,
            families[i] &&& VK_QUEUE_TRANSFER_BIT ≠ 0) ∧
      ((∀ f ∈ families, f &&& VK_QUEUE_TRANSFER_BIT = 0) →
        (∃ f ∈ families, f &&& VK_QUEUE_GRAPHICS_BIT ≠ 0) →
        ∃ i, findTransferQueueFamilyIndex families = some i ∧
          ∃ hi : i < families.length,
            families[i] &&& VK_QUEUE_GRAPHICS_BIT ≠ 0)) := by
  obtain ⟨b1, b2, b3, b4, b5⟩ := env
  refine ⟨fun henv => ?_, fun h1 h2 => ?_, fun b st2 ev h => ?_, fun families => ?_⟩
  · cases henv
    rfl
  · simp only [] at h1 h2
    subst h1
    subst h2
    cases b3 <;> cases b4 <;> cases b5 <;>
      intro b st2 ev h <;>
      simp only [UploadImageData, SubmitCommandBuffer, WaitForCompletion,
        vkWaitForFences, if_true, if_false, Bool.false_eq_true,
        Option.some.injEq, Prod.mk.injEq] at h <;>
      obtain ⟨h1, h2, h3⟩ := h <;>
      subst h3 <;>
      simp
  · revert h
    cases b1 <;> cases b2 <;> cases b3 <;> cases b4 <;> cases b5 <;>
      intro h <;>
      simp only [UploadImageData, SubmitCommandBuffer, WaitForCompletion,
        vkWaitForFences, if_true, if_false, Bool.false_eq_true,
        Option.some.injEq, Prod.mk.injEq] at h <;>
      obtain ⟨h1, h2, h3⟩ := h <;>
      subst h3 <;>
      simp [List.getLast?]
  · constructor
    · rintro ⟨f, hf, hne⟩
      have hne2 : families.findIdx?
          (fun flags => !decide (flags &&& VK_QUEUE_TRANSFER_BIT = 0)) ≠ none := by
        intro hnone
        have := List.findIdx?_eq_none_iff.mp hnone f hf
        simp at this
        exact hne this
      obtain ⟨i, hi⟩ := Option.ne_none_iff_exists'.mp hne2
      obtain ⟨hlt, hp, -⟩ := List.findIdx?_eq_some_iff_getElem.mp hi
      refine ⟨i, ?_, hlt, by simpa using hp⟩
      simp only [findTransferQueueFamilyIndex, ne_eq, decide_not, hi]
    · intro hall hex
      obtain ⟨f, hf, hne⟩ := hex
      have hnone : families.findIdx?
          (fun flags => !decide (flags &&& VK_QUEUE_TRANSFER_BIT = 0)) = none := by
        apply List.findIdx?_eq_none_iff.mpr
        intro x hx
        simp [hall x hx]
      have hne2 : families.findIdx?
          (fun flags => !decide (flags &&& VK_QUEUE_GRAPHICS_BIT = 0)) ≠ none := by
        intro hn
        have := List.findIdx?_eq_none_iff.mp hn f hf
        simp at this
        exact hne this
      obtain ⟨i, hi⟩ := Option.ne_none_iff_exists'.mp hne2
      obtain ⟨hlt, hp, -⟩ := List.findIdx?_eq_some_iff_getElem.mp hi
      refine ⟨i, ?_, hlt, by simpa using hp⟩
      simp only [findTransferQueueFamilyIndex, ne_eq, decide_not, hnone, hi]

/-- C4 witness: a fully successful upload of 4 bytes from the initial engine
state produces the contract trace, and with queue families
`[graphics-only, transfer-only]` the transfer family (index 1) is chosen. -/
theorem C4_uploadImageData_witness :
    (UploadImageData ⟨true, true, true, true, true⟩ 4 TransferState.init).isSome =
      true ∧
    findTransferQueueFamilyIndex [1, 4] = some 1 := by
  constructor
  · rw [(C4_uploadImageData_contract ⟨true, true, true, true, true⟩ 4
      TransferState.init).1 rfl]
    rfl
  · obtain ⟨i, hi, hlt, hp⟩ :=
      ((C4_uploadImageData_contract ⟨true, true, true, true, true⟩ 4
        TransferState.init).2.2.2 [1, 4]).1 ⟨4, by decide, by decide⟩
    have hv : findTransferQueueFamilyIndex [1, 4] = some 1 := by decide
    exact hv

/-- C5: from an engine state whose fence is in the reset (unsignaled) state,
every transfer-engine operation completes (no fence wait can block forever),
returns true exactly when every device call succeeded, logs and returns
false on any device-call failure, leaves the fence unsignaled (reset) for
the next operation regardless of where it failed, and its device calls are
command-buffer-valid started from any prior command-buffer state — the
buffer is reset inside the operation before any recording. -/
theorem C5_transfer_failure_keeps_engine_ready
    (op : TransferOp) (st : TransferState)
    (hf : st.fence = FenceSt.unsignaled) :
    ∃ b st2 ev, runTransferOp op st = some (b, st2, ev) ∧
      st2.fence = FenceSt.unsignaled ∧
      (∀ c, traceCmdOk c ev = true) ∧
      b = transferOpAllOk op ∧
      (b = false → ∃ m, TransferEvent.logError m ∈ ev) := by
  cases op with
  | createBufferOp ok size =>
      cases ok
      · exact ⟨_, _, _, rfl, hf, fun c => rfl, rfl,
          fun _ => ⟨"Failed to create buffer with VMA", by simp⟩⟩
      · exact ⟨_, _, _, rfl, hf, fun c => rfl, rfl, fun h => Bool.noConfusion h⟩
  | uploadBufferOp ok size =>
      cases ok
      · exact ⟨_, _, _, rfl, hf, fun c => rfl, rfl,
          fun _ => ⟨"Failed to map buffer memory", by simp⟩⟩
      · exact ⟨_, _, _, rfl, hf, fun c => rfl, rfl, fun h => Bool.noConfusion h⟩
  | createImageOp ok =>
      cases ok
      · exact ⟨_, _, _, rfl, hf, fun c => rfl, rfl,
          fun _ => ⟨"Failed to create image with VMA", by simp⟩⟩
      · exact ⟨_, _, _, rfl, hf, fun c => rfl, rfl, fun h => Bool.noConfusion h⟩
  | uploadImageOp env size =>
      obtain ⟨b1, b2, b3, b4, b5⟩ := env
      cases b1 with
      | false =>
          exact ⟨_, _, _, rfl, hf, fun c => rfl, rfl,
            fun _ => ⟨"Failed to begin command buffer for image upload", by simp⟩⟩
      | true =>
          cases b2 with
          | false =>
              exact ⟨_, _, _, rfl, hf, fun c => rfl, rfl,
                fun _ => ⟨"Failed to create staging buffer", by simp⟩⟩
          | true =>
              cases b3 with
              | false =>
                  exact ⟨_, _, _, rfl, hf, fun c => rfl, rfl,
                    fun _ => ⟨"Failed to map staging buffer memory", by simp⟩⟩
              | true =>
                  cases b4 with
                  | false =>
                      exact ⟨_, _, _, rfl, hf, fun c => rfl, rfl,
                        fun _ =>
                          ⟨"Failed to end command buffer for image upload", by simp⟩⟩
                  | true =>
                      cases b5 with
                      | false =>
                          exact ⟨_, _, _, rfl, hf, fun c => rfl, rfl,
                            fun _ =>
                              ⟨"Failed to submit transfer command buffer", by simp⟩⟩
                      | true =>
                          exact ⟨_, _, _, rfl, rfl, fun c => rfl, rfl,
                            fun h => Bool.noConfusion h⟩

/-- C5 witness: an image upload whose `vkEndCommandBuffer` fails still
completes from the freshly initialized engine state. -/
theorem C5_transfer_witness :
    TransferState.init.fence = FenceSt.unsignaled ∧
    (runTransferOp (TransferOp.uploadImageOp ⟨true, true, true, false, true⟩ 8)
        TransferState.init).isSome = true := by
  refine ⟨rfl, ?_⟩
  obtain ⟨b, st2, ev, heq, -⟩ := C5_transfer_failure_keeps_engine_ready
    (TransferOp.uploadImageOp ⟨true, true, true, false, true⟩ 8)
    TransferState.init rfl
  rw [heq]
  rfl

lemma createTexture_true_events (k : Nat) (m : GltfMaterialSrc)
    (h : (CreateTextureFromImage k m).1 = true) :
    (CreateTextureFromImage k m).2 =
      [LoadEvent.createTextureImage k, LoadEvent.uploadTextureData k,
       LoadEvent.createTextureView k, LoadEvent.createTextureSampler k] := by
  unfold CreateTextureFromImage at h ⊢
  by_cases h1 : m.createImageOk <;> by_cases h2 : m.uploadImageOk <;>
    by_cases h3 : m.createViewOk <;> by_cases h4 : m.createSamplerOk <;>
    simp [h1, h2, h3, h4] at h ⊢

lemma createTexture_no_insert (k : Nat) (m : GltfMaterialSrc) (p : String) :
    LoadEvent.cacheInsert p ∉ (CreateTextureFromImage k m).2 := by
  unfold CreateTextureFromImage
  by_cases h1 : m.createImageOk <;> by_cases h2 : m.uploadImageOk <;>
    by_cases h3 : m.createViewOk <;> by_cases h4 : m.createSamplerOk <;>
    simp [h1, h2, h3, h4]

lemma loadMaterialsFrom_no_insert (l : List GltfMaterialSrc) (k : Nat) (p : String) :
    LoadEvent.cacheInsert p ∉ (LoadMaterialsFrom k l).2 := by
  induction l generalizing k with
  | nil => simp [LoadMaterialsFrom]
  | cons m rest ih =>
      by_cases hm : m.hasBaseColorTexture
      · rcases hC : CreateTextureFromImage k m with ⟨b1, ev1⟩
        have hC2 := createTexture_no_insert k m p
        rw [hC] at hC2
        cases b1 with
        | false => simpa [LoadMaterialsFrom, hm, hC] using hC2
        | true =>
            rcases hR : LoadMaterialsFrom (k + 1) rest with ⟨b2, ev2⟩
            have hR2 := ih (k + 1)
            rw [hR] at hR2
            simp [LoadMaterialsFrom, hm, hC, hR]
            exact ⟨hC2, hR2⟩
      · simpa [LoadMaterialsFrom, hm] using ih (k + 1)

lemma loadMeshesFrom_no_insert (l : List GltfMeshSrc) (k : Nat) (p : String) :
    LoadEvent.cacheInsert p ∉ (LoadMeshesFrom k l).2 := by
  induction l generalizing k with
  | nil => simp [LoadMeshesFrom]
  | cons m rest ih =>
      by_cases hg : !m.hasPrimitives || m.vertexCount = 0 || m.indexCount = 0
      · simpa [LoadMeshesFrom, hg] using ih (k + 1)
      · rcases hR : LoadMeshesFrom (k + 1) rest with ⟨b2, ev2⟩
        have hR2 := ih (k + 1)
        rw [hR] at hR2
        by_cases h1 : m.createVertexOk <;> by_cases h2 : m.uploadVertexOk <;>
          by_cases h3 : m.createIndexOk <;> by_cases h4 : m.uploadIndexOk <;>
          simp [LoadMeshesFrom, hg, h1, h2, h3, h4, hR]
        all_goals exact hR2

lemma loadMaterialsFrom_mem (l : List GltfMaterialSrc) (k : Nat)
    (hsucc : (LoadMaterialsFrom k l).1 = true) :
    ∀ i (hi : i < l.length), l[i].hasBaseColorTexture = true →
      LoadEvent.uploadTextureData (k + i) ∈ (LoadMaterialsFrom k l).2 := by
  induction l generalizing k with
  | nil => intro i hi; simp at hi
  | cons m rest ih =>
      intro i hi htex
      by_cases hm : m.hasBaseColorTexture
      · rcases hC : CreateTextureFromImage k m with ⟨b1, ev1⟩
        cases b1 with
        | false => simp [LoadMaterialsFrom, hm, hC] at hsucc
        | true =>
            rcases hR : LoadMaterialsFrom (k + 1) rest with ⟨b2, ev2⟩
            rw [LoadMaterialsFrom] at hsucc ⊢
            simp only [hm, if_true, hC, hR] at hsucc ⊢
            have hev1 : ev1 =
                [LoadEvent.createTextureImage k, LoadEvent.uploadTextureData k,
                 LoadEvent.createTextureView k, LoadEvent.createTextureSampler k] := by
              have := createTexture_true_events k m (by rw [hC])
              rw [hC] at this
              exact this
            cases i with
            | zero => simp [hev1]
            | succ j =>
                have hmem := ih (k + 1) (by rw [hR]; exact hsucc) j
                  (Nat.lt_of_succ_lt_succ hi) (by simpa using htex)
                rw [hR] at hmem
                simp only [List.mem_append]
                right
                have : k + 1 + j = k + (j + 1) := by omega
                rwa [this] at hmem
      · rw [LoadMaterialsFrom] at hsucc ⊢
        simp only [hm, if_false, Bool.false_eq_true] at hsucc ⊢
        cases i with
        | zero => simp at htex; exact absurd htex hm
        | succ j =>
            have hmem := ih (k + 1) hsucc j (Nat.lt_of_succ_lt_succ hi)
              (by simpa using htex)
            have : k + 1 + j = k + (j + 1) := by omega
            rwa [this] at hmem

lemma loadMeshesFrom_mem (l : List GltfMeshSrc) (k : Nat)
    (hsucc : (LoadMeshesFrom k l).1 = true) :
    ∀ i (hi : i < l.length),
      l[i].hasPrimitives = true → l[i].vertexCount ≠ 0 → l[i].indexCount ≠ 0 →
      LoadEvent.uploadVertexData (k + i) ∈ (LoadMeshesFrom k l).2 ∧
      LoadEvent.uploadIndexData (k + i) ∈ (LoadMeshesFrom k l).2 := by
  induction l generalizing k with
  | nil => intro i hi; simp at hi
  | cons m rest ih =>
      intro i hi hp hv hx
      by_cases hg : !m.hasPrimitives || m.vertexCount = 0 || m.indexCount = 0
      · rw [LoadMeshesFrom] at hsucc ⊢
        simp only [hg, if_true] at hsucc ⊢
        cases i with
        | zero =>
            simp at hp hv hx
            simp [hp, hv, hx] at hg
        | succ j =>
            have hmem := ih (k + 1) hsucc j (Nat.lt_of_succ_lt_succ hi)
              (by simpa using hp) (by simpa using hv) (by simpa using hx)
            have harith : k + 1 + j = k + (j + 1) := by omega
            rwa [harith] at hmem
      · rcases hR : LoadMeshesFrom (k + 1) rest with ⟨b2, ev2⟩
        rw [LoadMeshesFrom] at hsucc ⊢
        by_cases h1 : m.createVertexOk
        case neg => simp [hg, h1] at hsucc
        by_cases h2 : m.uploadVertexOk
        case neg => simp [hg, h1, h2] at hsucc
        by_cases h3 : m.createIndexOk
        case neg => simp [hg, h1, h2, h3] at hsucc
        by_cases h4 : m.uploadIndexOk
        case neg => simp [hg, h1, h2, h3, h4] at hsucc
        simp only [hg, h1, h2, h3, h4, if_false, if_true, Bool.not_true,
          Bool.false_eq_true, hR] at hsucc ⊢
        cases i with
        | zero => simp
        | succ j =>
            have hmem := ih (k + 1) (by rw [hR]; exact hsucc) j
              (Nat.lt_of_succ_lt_succ hi) (by simpa using hp)
              (by simpa using hv) (by simpa using hx)
            rw [hR] at hmem
            have harith : k + 1 + j = k + (j + 1) := by omega
            rw [harith] at hmem
            constructor
            · simp only [List.mem_append]
              right
              exact hmem.1
            · simp only [List.mem_append]
              right
              exact hmem.2

lemma parseGltfFile_success_shape (path : String) (src : GltfFileSrc)
    (h : (ParseGltfFile path src).1.success = true) :
    src.parseOk = true ∧
    (LoadMaterialsFrom 0 src.materials).1 = true ∧
    (LoadMeshesFrom 0 src.meshes).1 = true ∧
    (ParseGltfFile path src).1.model = some { name := path, isLoaded := true } ∧
    (ParseGltfFile path src).2 =
      LoadEvent.parseFile path ::
        ((LoadMaterialsFrom 0 src.materials).2 ++ (LoadMeshesFrom 0 src.meshes).2) := by
  unfold ParseGltfFile at h ⊢
  cases hpk : src.parseOk with
  | false => simp [hpk] at h
  | true =>
      rcases hM : LoadMaterialsFrom 0 src.materials with ⟨bM, evM⟩
      rcases hMe : LoadMeshesFrom 0 src.meshes with ⟨bMe, evMe⟩
      cases bM with
      | false => simp [hpk, hM] at h
      | true =>
          cases bMe with
          | false => simp [hpk, hM, hMe] at h
          | true => simp [hpk, hM, hMe]

lemma parseGltfFile_mem_parse (path : String) (src : GltfFileSrc) :
    LoadEvent.parseFile path ∈ (ParseGltfFile path src).2 := by
  unfold ParseGltfFile
  cases hpk : src.parseOk with
  | false => simp
  | true =>
      rcases hM : LoadMaterialsFrom 0 src.materials with ⟨bM, evM⟩
      rcases hMe : LoadMeshesFrom 0 src.meshes with ⟨bMe, evMe⟩
      cases bM <;> cases bMe <;> simp

lemma parseGltfFile_no_insert (path p : String) (src : GltfFileSrc) :
    LoadEvent.cacheInsert p ∉ (ParseGltfFile path src).2 := by
  unfold ParseGltfFile
  cases hpk : src.parseOk with
  | false => simp
  | true =>
      rcases hM : LoadMaterialsFrom 0 src.materials with ⟨bM, evM⟩
      rcases hMe : LoadMeshesFrom 0 src.meshes with ⟨bMe, evMe⟩
      have hM2 := loadMaterialsFrom_no_insert src.materials 0 p
      have hMe2 := loadMeshesFrom_no_insert src.meshes 0 p
      rw [hM] at hM2
      rw [hMe] at hMe2
      cases bM <;> cases bMe <;> simp [hM2, hMe2]

/-- C9: `LoadModel` first checks the name-keyed cache under the models mutex
and on a hit returns the cached model with success, with no parsing and no
uploads; on a miss it parses and uploads through `ParseGltfFile`, and caches
the resulting model only when that succeeded — a failed load leaves the
cache unchanged and inserts nothing; a successful miss uploads the vertex
and index buffers of every qualifying mesh and the texture of every textured
material. -/
theorem C9_loadModel_cache_behavior
    (cache : List (String × ParsedModel)) (path : String) (src : GltfFileSrc) :
    (∀ m, lookupCache cache path = some m →
      LoadModel cache path src =
        ({ model := some m, success := true, errorMessage := "" }, cache,
         [LoadEvent.lockModelsMutex, LoadEvent.unlockModelsMutex])) ∧
    (lookupCache cache path = none →
      ∀ r c2 ev, LoadModel cache path src = (r, c2, ev) →
        LoadEvent.parseFile path ∈ ev ∧
        (r.success = true →
          c2 = (path, { name := path, isLoaded := true }) :: cache ∧
          LoadEvent.cacheInsert path ∈ ev ∧
          src.parseOk = true ∧
          (∀ i (hi : i < src.materials.length),
            src.materials[i].hasBaseColorTexture = true →
            LoadEvent.uploadTextureData i ∈ ev) ∧
          (∀ i (hi : i < src.meshes.length),
            src.meshes[i].hasPrimitives = true → src.meshes[i].vertexCount ≠ 0 →
            src.meshes[i].indexCount ≠ 0 →
            LoadEvent.uploadVertexData i ∈ ev ∧
              LoadEvent.uploadIndexData i ∈ ev)) ∧
        (r.success = false →
          c2 = cache ∧ LoadEvent.cacheInsert path ∉ ev)) := by
  constructor
  · intro m hm
    simp [LoadModel, hm]
  · intro hnone r c2 ev heq
    rcases hP : ParseGltfFile path src with ⟨r0, ev0⟩
    simp only [LoadModel, hnone, hP] at heq
    have hparse := parseGltfFile_mem_parse path src
    rw [hP] at hparse
    by_cases hs : r0.success
    · simp only [hs, if_true] at heq
      injection heq with h1 h23
      injection h23 with h2 h3
      subst h1
      subst h2
      subst h3
      have hshape := parseGltfFile_success_shape path src (by rw [hP]; exact hs)
      rw [hP] at hshape
      obtain ⟨hpk, hM, hMe, hmodel, hev0⟩ := hshape
      have hmodel2 : r0.model = some { name := path, isLoaded := true } := hmodel
      have hev0b : ev0 = LoadEvent.parseFile path ::
          ((LoadMaterialsFrom 0 src.materials).2 ++
            (LoadMeshesFrom 0 src.meshes).2) := hev0
      refine ⟨by simp [hparse], fun _ => ?_, fun hfail => ?_⟩
      · refine ⟨by simp [hmodel2], by simp, hpk, fun i hi htex => ?_,
          fun i hi hp hv hx => ?_⟩
        · have hmem := loadMaterialsFrom_mem src.materials 0 hM i hi htex
          rw [Nat.zero_add] at hmem
          rw [hev0b]
          simp [List.mem_append, hmem]
        · have hmem := loadMeshesFrom_mem src.meshes 0 hMe i hi hp hv hx
          rw [Nat.zero_add] at hmem
          rw [hev0b]
          constructor
          · simp [List.mem_append, hmem.1]
          · simp [List.mem_append, hmem.2]
      · rw [hs] at hfail
        cases hfail
    · simp only [Bool.not_eq_true] at hs
      simp only [hs, Bool.false_eq_true, if_false] at heq
      injection heq with h1 h23
      injection h23 with h2 h3
      subst h1
      subst h2
      subst h3
      have hni := parseGltfFile_no_insert path path src
      rw [hP] at hni
      refine ⟨by simp [hparse], fun hok => ?_, fun _ => ⟨rfl, ?_⟩⟩
      · rw [hs] at hok
        cases hok
      · simp [List.mem_append, hni]

/-- C9 witness: a lookup of a cached name returns the cached model at once
with no parsing and no uploads. -/
theorem C9_loadModel_witness :
    LoadModel [("a", { name := "a", isLoaded := true })] "a"
        { parseOk := true, materials := [], meshes := [] } =
      ({ model := some { name := "a", isLoaded := true }, success := true,
         errorMessage := "" },
       [("a", { name := "a", isLoaded := true })],
       [LoadEvent.lockModelsMutex, LoadEvent.unlockModelsMutex]) :=
  (C9_loadModel_cache_behavior [("a", { name := "a", isLoaded := true })] "a"
    { parseOk := true, materials := [], meshes := [] }).1
    { name := "a", isLoaded := true } (by decide)

lemma recreateSwapchain_ok_eq (env : RecreateEnv) (r r2 : Renderer)
    (ev : List RenderEvent)
    (h : RecreateSwapchain env r = StepResult.ok (r2, ev)) :
    r2 = { r with
      inFlightFences := r.inFlightFences.map
        (fun f => if f = FenceSt.pending then FenceSt.signaled else f)
      imagesInFlight := vectorResize r.imagesInFlight env.newImageCount none
      imageFinishedSemaphores := (List.range env.newImageCount).map
        (fun i => r.nextHandle + 1 + 2 * env.newImageCount + i)
      swapchainFramebuffers := (List.range env.newImageCount).map
        (fun i => r.nextHandle + 1 + env.newImageCount + i)
      swapchainImageViews := (List.range env.newImageCount).map
        (fun i => r.nextHandle + 1 + i)
      swapchain := r.nextHandle
      nextHandle := r.nextHandle + 1 + 2 * env.newImageCount + env.newImageCount } ∧
    ev = (RenderEvent.deviceWaitIdle ::
        (r.swapchainFramebuffers.map RenderEvent.destroyFramebuffer ++
         r.swapchainImageViews.map RenderEvent.destroyImageView ++
         [RenderEvent.destroySwapchain r.swapchain])) ++
      (RenderEvent.createSwapchain r.nextHandle ::
        (((List.range env.newImageCount).map (fun i => r.nextHandle + 1 + i)).map
            RenderEvent.createImageView ++
         ((List.range env.newImageCount).map
            (fun i => r.nextHandle + 1 + env.newImageCount + i)).map
            RenderEvent.createFramebuffer)) ++
      r.imageFinishedSemaphores.map RenderEvent.destroySemaphore ++
      (List.range env.newImageCount).map
        (fun i => RenderEvent.createSemaphore
          (r.nextHandle + 1 + 2 * env.newImageCount + i)) := by
  simp only [RecreateSwapchain] at h
  split at h
  · exact StepResult.noConfusion h
  · split at h
    · split at h
      · split at h
        · exact StepResult.noConfusion h
        · injection h with h'
          injection h' with h1 h2
          exact ⟨h1.symm, h2.symm⟩
      · injection h with h'
        injection h' with h1 h2
        exact ⟨h1.symm, h2.symm⟩
    · exact StepResult.noConfusion h

lemma recreateSwapchain_stuck (env : RecreateEnv) (r : Renderer)
    (h : firstNonzeroSize env.framebufferSizes = none) :
    RecreateSwapchain env r = StepResult.stuck := by
  unfold RecreateSwapchain
  rw [h]

lemma recreateSwapchain_no_resetFence (env : RecreateEnv) (r r2 : Renderer)
    (ev : List RenderEvent) (s : Nat)
    (h : RecreateSwapchain env r = StepResult.ok (r2, ev)) :
    RenderEvent.resetFence s ∉ ev := by
  obtain ⟨-, hev⟩ := recreateSwapchain_ok_eq env r r2 ev h
  subst hev
  simp [List.mem_append, List.mem_map]

/-- C2: `EndFrame` submits waiting on the current frame's image-available
semaphore at the color-attachment-output stage, signaling the per-image
finished semaphore of the acquired image (indexed by image, not frame) and
guarded by the frame's in-flight fence; it presents waiting on that same
per-image semaphore; and on every non-fatal completion — including a
stale/suboptimal present result that triggers recreation — it advances the
frame index modulo `MAX_FRAMES_IN_FLIGHT = 2` at the end, while submit
failure or any other present failure is fatal. -/
theorem C2_endFrame_submit_present_advance (env : PresentEnv) (r : Renderer) :
    (env.submitOk = false →
      EndFrame env r = StepResult.fatal "Failed to submit draw command buffer") ∧
    (env.submitOk = true → env.presentResult = VkResult.errorOther →
      EndFrame env r = StepResult.fatal "Failed to present swapchain image") ∧
    (∀ r2 ev, EndFrame env r = StepResult.ok (r2, ev) →
      ev.take 2 =
        [RenderEvent.queueSubmit
            (r.imageAvailableSemaphores.getD r.currentFrame 0)
            VK_PIPELINE_STAGE_COLOR_ATTACHMENT_OUTPUT_BIT r.currentFrame
            (r.imageFinishedSemaphores.getD r.currentImageIndex 0)
            r.currentFrame,
         RenderEvent.queuePresent
            (r.imageFinishedSemaphores.getD r.currentImageIndex 0)
            r.currentImageIndex] ∧
      r2.currentFrame = (r.currentFrame + 1) % MAX_FRAMES_IN_FLIGHT ∧
      ((env.presentResult = VkResult.errorOutOfDateKHR ∨
        env.presentResult = VkResult.suboptimalKHR) →
        RenderEvent.deviceWaitIdle ∈ ev)) := by
  refine ⟨fun hsub => ?_, fun hsub hpres => ?_, fun r2 ev h => ?_⟩
  · simp [EndFrame, hsub]
  · simp [EndFrame, hsub, hpres]
  · unfold EndFrame at h
    cases hsub : env.submitOk with
    | false => rw [hsub] at h; exact StepResult.noConfusion h
    | true =>
        rw [hsub] at h
        simp only [if_true] at h
        by_cases hpr : env.presentResult = VkResult.errorOutOfDateKHR ∨
            env.presentResult = VkResult.suboptimalKHR
        · simp only [hpr, if_true] at h
          rcases hrec : RecreateSwapchain env.recreateEnv
              { r with inFlightFences :=
                  r.inFlightFences.set r.currentFrame FenceSt.pending } with
            res | m | u
          · rcases res with ⟨r3, ev3⟩
            rw [hrec] at h
            injection h with h'
            injection h' with h1 h2
            obtain ⟨hr3, hev3⟩ :=
              recreateSwapchain_ok_eq _ _ _ _ hrec
            refine ⟨?_, ?_, fun _ => ?_⟩
            · rw [← h2]
              rfl
            · rw [← h1]
              simp only [hr3]
            · rw [← h2, hev3]
              simp
          · rw [hrec] at h; exact StepResult.noConfusion h
          · rw [hrec] at h; exact StepResult.noConfusion h
        · have hps : env.presentResult = VkResult.success ∨
              env.presentResult = VkResult.errorOther := by
            cases hx : env.presentResult <;> simp [hx] at hpr ⊢
          simp only [hpr, if_false] at h
          rcases hps with hps | hps
          · simp only [hps] at h
            injection h with h'
            injection h' with h1 h2
            refine ⟨?_, ?_, fun hcontra => ?_⟩
            · rw [← h2]
              rfl
            · rw [← h1]
            · rw [hps] at hcontra
              simp at hcontra
          · simp only [hps] at h
            exact StepResult.noConfusion h

/-- C2 witness: a successful submit and present from a concrete two-frame
state advances the frame index from 0 to 1. -/
theorem C2_endFrame_witness :
    EndFrame ⟨false, VkResult.success, ⟨[], true, 1, none⟩⟩
        ⟨0, 0, [FenceSt.unsignaled, FenceSt.signaled], [none], [0, 1], [2],
         [3], [4], 5, 6⟩ =
      StepResult.fatal "Failed to submit draw command buffer" :=
  (C2_endFrame_submit_present_advance ⟨false, VkResult.success, ⟨[], true, 1, none⟩⟩
    ⟨0, 0, [FenceSt.unsignaled, FenceSt.signaled], [none], [0, 1], [2],
     [3], [4], 5, 6⟩).1 rfl

/-- C3 counterexample: a successful recreation with an unchanged image count
leaves the stale per-image `fenceInFlight` slot (`m_imagesInFlight`) holding
its old fence instead of rebuilding it to null —
`std::vector::resize(n, VK_NULL_HANDLE)` only fills newly added slots. -/
theorem C3_recreate_keeps_stale_image_fences :
    RecreateSwapchain ⟨[(800, 600)], true, 1, none⟩
        ⟨0, 0, [FenceSt.signaled, FenceSt.signaled], [some 0], [0, 1], [2],
         [3], [4], 5, 6⟩ =
      StepResult.ok
        (⟨0, 0, [FenceSt.signaled, FenceSt.signaled], [some 0], [0, 1], [9],
          [8], [7], 6, 10⟩,
         [RenderEvent.deviceWaitIdle, RenderEvent.destroyFramebuffer 3,
          RenderEvent.destroyImageView 4, RenderEvent.destroySwapchain 5,
          RenderEvent.createSwapchain 6, RenderEvent.createImageView 7,
          RenderEvent.createFramebuffer 8, RenderEvent.destroySemaphore 2,
          RenderEvent.createSemaphore 9]) ∧
    [some 0] ≠ List.replicate 1 (none : Option Nat) :=
  ⟨by decide, by decide⟩

/-- C3 (amended): `RecreateSwapchain` blocks until the window reports nonzero
framebuffer dimensions, waits for the device to go idle, destroys the
framebuffers, image views and swapchain and rebuilds them at the new image
count, destroys every stale per-image semaphore and creates one fresh
per-image semaphore per new swapchain image; the per-image `fenceInFlight`
tracking vector is resized to the new image count with only newly added
slots set to null — slots carried over from the old swapchain retain their
previous fence references rather than being rebuilt. -/
theorem C3_recreateSwapchain_amended (env : RecreateEnv) (r : Renderer)
    (hfresh : ∀ h ∈ r.imageFinishedSemaphores, h < r.nextHandle) :
    (firstNonzeroSize env.framebufferSizes = none →
      RecreateSwapchain env r = StepResult.stuck) ∧
    (∀ r2 ev, RecreateSwapchain env r = StepResult.ok (r2, ev) →
      RenderEvent.deviceWaitIdle ∈ ev ∧
      (∀ h ∈ r.swapchainFramebuffers, RenderEvent.destroyFramebuffer h ∈ ev) ∧
      (∀ h ∈ r.swapchainImageViews, RenderEvent.destroyImageView h ∈ ev) ∧
      RenderEvent.destroySwapchain r.swapchain ∈ ev ∧
      r2.swapchainFramebuffers.length = env.newImageCount ∧
      r2.swapchainImageViews.length = env.newImageCount ∧
      (∀ h ∈ r.imageFinishedSemaphores, RenderEvent.destroySemaphore h ∈ ev) ∧
      r2.imageFinishedSemaphores.length = env.newImageCount ∧
      (∀ h2 ∈ r2.imageFinishedSemaphores, h2 ∉ r.imageFinishedSemaphores) ∧
      r2.imagesInFlight = vectorResize r.imagesInFlight env.newImageCount none) := by
  refine ⟨fun hnz => recreateSwapchain_stuck env r hnz, fun r2 ev h => ?_⟩
  obtain ⟨hr2, hev⟩ := recreateSwapchain_ok_eq env r r2 ev h
  subst hr2
  subst hev
  refine ⟨by simp, fun hh hmem => ?_, fun hh hmem => ?_, by simp, by simp,
    by simp, fun hh hmem => ?_, by simp, fun h2 hmem2 hmem_old => ?_, rfl⟩
  · exact List.mem_append_left _ (List.mem_append_left _ (List.mem_append_left _
      (List.mem_cons_of_mem _ (List.mem_append_left _ (List.mem_append_left _
        (List.mem_map_of_mem _ hmem))))))
  · exact List.mem_append_left _ (List.mem_append_left _ (List.mem_append_left _
      (List.mem_cons_of_mem _ (List.mem_append_left _ (List.mem_append_right _
        (List.mem_map_of_mem _ hmem))))))
  · exact List.mem_append_left _ (List.mem_append_right _
      (List.mem_map_of_mem _ hmem))
  · simp only [List.mem_map, List.mem_range] at hmem2
    obtain ⟨i, hi, rfl⟩ := hmem2
    have hlt := hfresh _ hmem_old
    omega

/-- C3 witness: a window that never reports a nonzero size blocks the
recreation forever. -/
theorem C3_recreateSwapchain_witness :
    (∀ h ∈ ([2] : List Nat), h < 6) ∧
    RecreateSwapchain ⟨[(0, 0), (0, 600)], true, 1, none⟩
        ⟨0, 0, [FenceSt.signaled, FenceSt.signaled], [some 0], [0, 1], [2],
         [3], [4], 5, 6⟩ =
      StepResult.stuck :=
  ⟨by decide,
   (C3_recreateSwapchain_amended ⟨[(0, 0), (0, 600)], true, 1, none⟩
     ⟨0, 0, [FenceSt.signaled, FenceSt.signaled], [some 0], [0, 1], [2],
      [3], [4], 5, 6⟩ (by decide)).1 rfl⟩

lemma getD_set_self {α : Type} (l : List α) (i : Nat) (a d : α)
    (h : i < l.length) : (l.set i a).getD i d = a := by
  rw [List.getD_eq_getElem _ _ (by simpa using h)]
  simp

lemma getD_set_ne {α : Type} (l : List α) (i j : Nat) (a d : α) (h : i ≠ j) :
    (l.set i a).getD j d = l.getD j d := by
  simp [List.getD_eq_getD_get?, List.get?_eq_getElem?, List.getElem?_set_ne h]

lemma vectorResize_mem {α : Type} (l : List α) (n : Nat) (d x : α)
    (h : x ∈ vectorResize l n d) : x ∈ l ∨ x = d := by
  rcases List.mem_append.mp h with h | h
  · exact Or.inl (List.mem_of_mem_take h)
  · exact Or.inr (List.eq_of_mem_replicate h)

lemma set_signaled_all (l : List FenceSt)
    (hall : ∀ f ∈ l, f ≠ FenceSt.unsignaled) (i : Nat) :
    ∀ f ∈ l.set i FenceSt.signaled, f ≠ FenceSt.unsignaled := by
  intro f hf
  rcases List.mem_or_eq_of_mem_set hf with h | h
  · exact hall f h
  · subst h
    simp

lemma midFences_of_all (l : List FenceSt)
    (hall : ∀ f ∈ l, f ≠ FenceSt.unsignaled) (cf : Nat) :
    ∀ i (hi : i < (l.set cf FenceSt.unsignaled).length), i ≠ cf →
      (l.set cf FenceSt.unsignaled)[i] ≠ FenceSt.unsignaled := by
  intro i hi hne
  rw [List.getElem_set_ne (Ne.symm hne) hi]
  exact hall _ (List.getElem_mem _)

lemma imagesInv_set (l : List (Option Nat))
    (hall : ∀ s ∈ l, ∀ k, s = some k → k < MAX_FRAMES_IN_FLIGHT)
    (img cf : Nat) (hcf : cf < MAX_FRAMES_IN_FLIGHT) :
    ∀ s ∈ l.set img (some cf), ∀ k, s = some k → k < MAX_FRAMES_IN_FLIGHT := by
  intro s hs k hk
  rcases List.mem_or_eq_of_mem_set hs with h | h
  · exact hall s h k hk
  · subst h
    injection hk with h2
    subst h2
    exact hcf

lemma idleMap_ne_unsignaled (f : FenceSt) (h : f ≠ FenceSt.unsignaled) :
    (if f = FenceSt.pending then FenceSt.signaled else f) ≠ FenceSt.unsignaled := by
  cases f <;> simp_all

lemma endFrame_preserves_inv (penv : PresentEnv) (r2 r3 : Renderer)
    (ev2 : List RenderEvent) (hmid : RendererMidInv r2)
    (h : EndFrame penv r2 = StepResult.ok (r3, ev2)) :
    RendererInv r3 := by
  obtain ⟨hcf, hlen, hfen, himg⟩ := hmid
  have hpend : ∀ i (hi : i < (r2.inFlightFences.set r2.currentFrame
      FenceSt.pending).length),
      (r2.inFlightFences.set r2.currentFrame FenceSt.pending)[i] ≠
        FenceSt.unsignaled := by
    intro i hi
    by_cases hic : i = r2.currentFrame
    · subst hic
      rw [List.getElem_set_self hi]
      simp
    · rw [List.getElem_set_ne (fun hx => hic hx.symm) hi]
      exact hfen i (by simpa using hi) hic
  have hpendMem : ∀ f ∈ r2.inFlightFences.set r2.currentFrame FenceSt.pending,
      f ≠ FenceSt.unsignaled := by
    intro f hf
    obtain ⟨j, hj, rfl⟩ := List.mem_iff_getElem.mp hf
    exact hpend j hj
  unfold EndFrame at h
  cases hsub : penv.submitOk with
  | false => rw [hsub] at h; exact StepResult.noConfusion h
  | true =>
      rw [hsub] at h
      simp only [if_true] at h
      by_cases hpr : penv.presentResult = VkResult.errorOutOfDateKHR ∨
          penv.presentResult = VkResult.suboptimalKHR
      · simp only [hpr, if_true] at h
        rcases hrec : RecreateSwapchain penv.recreateEnv
            { r2 with inFlightFences :=
                r2.inFlightFences.set r2.currentFrame FenceSt.pending } with
          res | m | u
        · rcases res with ⟨rr, evr⟩
          rw [hrec] at h
          injection h with h'
          injection h' with h1 h2
          obtain ⟨hrr, -⟩ := recreateSwapchain_ok_eq _ _ _ _ hrec
          subst hrr
          rw [← h1]
          refine ⟨Nat.mod_lt _ (by decide), by simp [hlen], ?_, ?_⟩
          · intro f hf
            obtain ⟨j, hj, rfl⟩ := List.mem_iff_getElem.mp hf
            have hj2 : j < (r2.inFlightFences.set r2.currentFrame
                FenceSt.pending).length := by simpa using hj
            rw [List.getElem_map]
            exact idleMap_ne_unsignaled _ (hpend j hj2)
          · intro s hs k hk
            rcases vectorResize_mem _ _ _ _ hs with h3 | h3
            · exact himg s h3 k hk
            · subst h3
              exact absurd hk (by simp)
        · rw [hrec] at h; exact StepResult.noConfusion h
        · rw [hrec] at h; exact StepResult.noConfusion h
      · by_cases hps : penv.presentResult = VkResult.success
        · simp only [hpr, if_false, hps] at h
          injection h with h'
          injection h' with h1 h2
          rw [← h1]
          refine ⟨Nat.mod_lt _ (by decide), by simp [hlen], hpendMem, himg⟩
        · have hne : penv.presentResult ≠ VkResult.success := hps
          simp only [hpr, if_false, ne_eq, hne, not_false_eq_true, if_true] at h
          exact StepResult.noConfusion h

/-- C1: with `MAX_FRAMES_IN_FLIGHT = 2`, under the scheduler invariant
(every in-flight fence signaled or pending, valid slots), `BeginFrame`
never blocks forever on a fence wait (only the out-of-date recreate path
can block, in its window-size loop); it waits (unbounded) on the current
frame's in-flight fence first — so that fence is in the signaled state at
the point slot reuse begins, witnessed by the fence-state semantics of the
trace up to the reset — additionally waits on the acquired image's tracked
`fenceInFlight` when that is non-null, and resets the frame's own fence
only after all those waits succeed, as the final device call; on the
out-of-date path no fence is ever reset; and a full
`BeginFrame`/`EndFrame` iteration re-establishes the invariant, so the
discipline holds at every `BeginFrame` that reuses a slot. -/
theorem C1_beginFrame_fence_discipline (env : AcquireEnv) (r : Renderer)
    (hinv : RendererInv r) :
    (env.acquireResult ≠ VkResult.errorOutOfDateKHR →
      BeginFrame env r ≠ StepResult.stuck) ∧
    (∀ r2 ev, BeginFrame env r = StepResult.ok (r2, ev) →
      ev.head? = some (RenderEvent.waitFence r.currentFrame) ∧
      ((env.acquireResult = VkResult.success ∨
        env.acquireResult = VkResult.suboptimalKHR) →
        (r.imagesInFlight.getD env.acquiredImage none = none →
          ev = [RenderEvent.waitFence r.currentFrame,
                RenderEvent.acquireNextImage
                  (r.imageAvailableSemaphores.getD r.currentFrame 0),
                RenderEvent.resetFence r.currentFrame]) ∧
        (∀ k, r.imagesInFlight.getD env.acquiredImage none = some k →
          ev = [RenderEvent.waitFence r.currentFrame,
                RenderEvent.acquireNextImage
                  (r.imageAvailableSemaphores.getD r.currentFrame 0),
                RenderEvent.waitImageFence k,
                RenderEvent.resetFence r.currentFrame]) ∧
        (applyFenceEvents r.inFlightFences ev.dropLast).getD r.currentFrame
            FenceSt.unsignaled = FenceSt.signaled ∧
        ev.getLast? = some (RenderEvent.resetFence r.currentFrame)) ∧
      (env.acquireResult = VkResult.errorOutOfDateKHR →
        ∀ s, RenderEvent.resetFence s ∉ ev) ∧
      (∀ penv r3 ev2, EndFrame penv r2 = StepResult.ok (r3, ev2) →
        RendererInv r3)) := by
  obtain ⟨hcf2, hlen, hfen, himg⟩ := hinv
  have hcf : r.currentFrame < r.inFlightFences.length := by
    rw [hlen]
    exact hcf2
  have hne0 : r.inFlightFences.getD r.currentFrame FenceSt.unsignaled ≠
      FenceSt.unsignaled := by
    rw [List.getD_eq_getElem _ _ hcf]
    exact hfen _ (List.getElem_mem hcf)
  have hw : vkWaitForFences
      (r.inFlightFences.getD r.currentFrame FenceSt.unsignaled) =
      some FenceSt.signaled := by
    cases hx : r.inFlightFences.getD r.currentFrame FenceSt.unsignaled with
    | unsignaled => exact absurd hx hne0
    | pending => rfl
    | signaled => rfl
  have hallset : ∀ f ∈ r.inFlightFences.set r.currentFrame FenceSt.signaled,
      f ≠ FenceSt.unsignaled := set_signaled_all r.inFlightFences hfen _
  have hw2 : ∀ k, r.imagesInFlight.getD env.acquiredImage none = some k →
      k < MAX_FRAMES_IN_FLIGHT ∧
      vkWaitForFences ((r.inFlightFences.set r.currentFrame
        FenceSt.signaled).getD k FenceSt.unsignaled) = some FenceSt.signaled := by
    intro k hk
    have hk2 : k < MAX_FRAMES_IN_FLIGHT := by
      by_cases himg2 : env.acquiredImage < r.imagesInFlight.length
      · rw [List.getD_eq_getElem _ _ himg2] at hk
        exact himg _ (hk ▸ List.getElem_mem himg2) k hk
      · rw [List.getD_eq_default _ _ (Nat.le_of_not_lt himg2)] at hk
        exact absurd hk (by simp)
    have hkl : k < (r.inFlightFences.set r.currentFrame
        FenceSt.signaled).length := by
      rw [List.length_set, hlen]
      exact hk2
    have hnek : (r.inFlightFences.set r.currentFrame FenceSt.signaled).getD k
        FenceSt.unsignaled ≠ FenceSt.unsignaled := by
      rw [List.getD_eq_getElem _ _ hkl]
      exact hallset _ (List.getElem_mem hkl)
    refine ⟨hk2, ?_⟩
    cases hx : (r.inFlightFences.set r.currentFrame FenceSt.signaled).getD k
        FenceSt.unsignaled with
    | unsignaled => exact absurd hx hnek
    | pending => rfl
    | signaled => rfl
  constructor
  · intro hood hstuck
    simp only [BeginFrame, hw] at hstuck
    rw [if_neg hood] at hstuck
    by_cases hoth : env.acquireResult ≠ VkResult.success ∧
        env.acquireResult ≠ VkResult.suboptimalKHR
    · rw [if_pos hoth] at hstuck
      exact StepResult.noConfusion hstuck
    · rw [if_neg hoth] at hstuck
      cases hk : r.imagesInFlight.getD env.acquiredImage none with
      | none =>
          rw [hk] at hstuck
          exact StepResult.noConfusion hstuck
      | some k =>
          rw [hk] at hstuck
          simp only [(hw2 k hk).2] at hstuck
          exact StepResult.noConfusion hstuck
  · intro r2 ev hok
    simp only [BeginFrame, hw] at hok
    by_cases hood : env.acquireResult = VkResult.errorOutOfDateKHR
    · rw [if_pos hood] at hok
      rcases hrec : RecreateSwapchain env.recreateEnv
          { r with inFlightFences :=
              r.inFlightFences.set r.currentFrame FenceSt.signaled } with
        res | m | u
      · rcases res with ⟨rr, evr⟩
        rw [hrec] at hok
        injection hok with h'
        injection h' with h1 h2
        refine ⟨?_, ?_, ?_, ?_⟩
        · rw [← h2]
          rfl
        · intro hcontra
          rcases hcontra with hc | hc <;> rw [hood] at hc <;>
            exact VkResult.noConfusion hc
        · intro _ s hmem
          rw [← h2] at hmem
          rcases List.mem_append.mp hmem with hm | hm
          · simp at hm
          · exact recreateSwapchain_no_resetFence _ _ _ _ s hrec hm
        · intro penv r3 ev2 hend
          obtain ⟨hrr, -⟩ := recreateSwapchain_ok_eq _ _ _ _ hrec
          refine endFrame_preserves_inv penv r2 r3 ev2 ?_ hend
          rw [← h1]
          subst hrr
          refine ⟨hcf2, by simp [hlen], ?_, ?_⟩
          · intro i hi hne
            rw [List.getElem_map]
            apply idleMap_ne_unsignaled
            exact hallset _ (List.getElem_mem _)
          · intro s hs k hk
            rcases vectorResize_mem _ _ _ _ hs with h3 | h3
            · exact himg s h3 k hk
            · subst h3
              exact absurd hk (by simp)
      · rw [hrec] at hok
        exact StepResult.noConfusion hok
      · rw [hrec] at hok
        exact StepResult.noConfusion hok
    · rw [if_neg hood] at hok
      by_cases hoth : env.acquireResult ≠ VkResult.success ∧
          env.acquireResult ≠ VkResult.suboptimalKHR
      · rw [if_pos hoth] at hok
        exact StepResult.noConfusion hok
      · rw [if_neg hoth] at hok
        cases hk : r.imagesInFlight.getD env.acquiredImage none with
        | none =>
            rw [hk] at hok
            injection hok with h'
            injection h' with h1 h2
            refine ⟨?_, ?_, ?_, ?_⟩
            · rw [← h2]
              rfl
            · intro hsucc
              refine ⟨fun _ => h2.symm, fun k hkk => Option.noConfusion hkk,
                ?_, ?_⟩
              · rw [← h2]
                exact getD_set_self r.inFlightFences r.currentFrame
                  FenceSt.signaled FenceSt.unsignaled hcf
              · rw [← h2]
                rfl
            · intro hcontra
              exact absurd hcontra hood
            · intro penv r3 ev2 hend
              refine endFrame_preserves_inv penv r2 r3 ev2 ?_ hend
              rw [← h1]
              refine ⟨hcf2, by simp [hlen], ?_, ?_⟩
              · exact midFences_of_all _ hallset r.currentFrame
              · exact imagesInv_set r.imagesInFlight himg env.acquiredImage
                  r.currentFrame hcf2
        | some k =>
            rw [hk] at hok
            simp only [(hw2 k hk).2] at hok
            injection hok with h'
            injection h' with h1 h2
            refine ⟨?_, ?_, ?_, ?_⟩
            · rw [← h2]
              rfl
            · intro hsucc
              refine ⟨fun hkk => Option.noConfusion hkk, fun k2 hkk => ?_, ?_, ?_⟩
              · injection hkk with he
                rw [← h2, he]
                rfl
              · rw [← h2]
                show ((r.inFlightFences.set r.currentFrame
                    FenceSt.signaled).set k FenceSt.signaled).getD
                  r.currentFrame FenceSt.unsignaled = FenceSt.signaled
                by_cases hkc : k = r.currentFrame
                · subst hkc
                  exact getD_set_self _ r.currentFrame FenceSt.signaled
                    FenceSt.unsignaled (by rw [List.length_set]; exact hcf)
                · rw [getD_set_ne _ k r.currentFrame _ _ hkc]
                  exact getD_set_self r.inFlightFences r.currentFrame
                    FenceSt.signaled FenceSt.unsignaled hcf
              · rw [← h2]
                rfl
            · intro hcontra
              exact absurd hcontra hood
            · intro penv r3 ev2 hend
              refine endFrame_preserves_inv penv r2 r3 ev2 ?_ hend
              rw [← h1]
              refine ⟨hcf2, by simp [hlen], ?_, ?_⟩
              · exact midFences_of_all _
                  (set_signaled_all _ hallset k) r.currentFrame
              · exact imagesInv_set r.imagesInFlight himg env.acquiredImage
                  r.currentFrame hcf2

/-- C1 witness: from a freshly initialized two-frame state (both fences
signaled, no image fences tracked) a successful acquire of image 0
completes, waits, and resets only at the end. -/
theorem C1_beginFrame_witness :
    RendererInv ⟨0, 0, [FenceSt.signaled, FenceSt.signaled], [none, none],
      [10, 11], [12, 13], [14, 15], [16, 17], 18, 19⟩ ∧
    BeginFrame ⟨VkResult.success, 0, ⟨[(800, 600)], true, 2, none⟩⟩
        ⟨0, 0, [FenceSt.signaled, FenceSt.signaled], [none, none],
         [10, 11], [12, 13], [14, 15], [16, 17], 18, 19⟩ ≠
      StepResult.stuck := by
  refine ⟨⟨by decide, by decide, by decide, by decide⟩, ?_⟩
  exact (C1_beginFrame_fence_discipline
    ⟨VkResult.success, 0, ⟨[(800, 600)], true, 2, none⟩⟩
    ⟨0, 0, [FenceSt.signaled, FenceSt.signaled], [none, none],
     [10, 11], [12, 13], [14, 15], [16, 17], 18, 19⟩
    ⟨by decide, by decide, by decide, by decide⟩).1 (by decide)

lemma poolInit_invariant (n : Nat) : PoolInvariant n (Pool.init n) := by
  refine ⟨rfl, by simp [Pool.init], fun t => by simp [Pool.init, busyTasks], ?_, ?_⟩
  · rintro ⟨w, hw, hwex⟩
    have := List.eq_of_mem_replicate hw
    subst this
    exact WStatus.noConfusion hwex
  · intro _ _
    rfl

lemma poolStep_preserves (n : Nat) (s s2 : Pool) (hstep : PoolStep s s2)
    (hinv : PoolInvariant n s) : PoolInvariant n s2 := by
  obtain ⟨henq, hwlen, hcount, hexit, hterm⟩ := hinv
  cases hstep with
  | enqueue h =>
      refine ⟨?_, hwlen, ?_, fun hex => hexit hex, ?_⟩
      · simp only [henq]
        rw [List.range_succ]
      · intro t
        have := hcount t
        simp only [List.count_append]
        omega
      · intro hne hall
        obtain ⟨w, hw⟩ := List.exists_mem_of_ne_nil s.workers hne
        have := hexit ⟨w, hw, hall w hw⟩
        rw [this] at h
        exact Bool.noConfusion h
  | pick w1 w2 t rest hw hq =>
      refine ⟨henq, ?_, ?_, ?_, ?_⟩
      · rw [← hwlen, hw]
        simp
      · intro t2
        have hbase := hcount t2
        rw [hw, hq] at hbase
        simp only [busyTasks, List.filterMap_append, List.filterMap_cons,
          List.count_append, List.count_cons] at hbase ⊢
        simp at hbase ⊢
        omega
      · intro hex
        apply hexit
        obtain ⟨w, hwmem, hwex⟩ := hex
        rw [hw]
        rcases List.mem_append.mp hwmem with hm | hm
        · exact ⟨w, List.mem_append_left _ hm, hwex⟩
        · rcases List.mem_cons.mp hm with hm2 | hm2
          · rw [hm2] at hwex
            exact WStatus.noConfusion hwex
          · exact ⟨w, List.mem_append_right _ (List.mem_cons_of_mem _ hm2), hwex⟩
      · intro hne hall
        have hmem : WStatus.busy t ∈ w1 ++ WStatus.busy t :: w2 :=
          List.mem_append_right _ (List.mem_cons_self _ _)
        exact WStatus.noConfusion (hall _ hmem)
  | finish w1 w2 t hw =>
      refine ⟨henq, ?_, ?_, ?_, ?_⟩
      · rw [← hwlen, hw]
        simp
      · intro t2
        have hbase := hcount t2
        rw [hw] at hbase
        simp only [busyTasks, List.filterMap_append, List.filterMap_cons,
          List.count_append, List.count_cons] at hbase ⊢
        simp at hbase ⊢
        omega
      · intro hex
        apply hexit
        obtain ⟨w, hwmem, hwex⟩ := hex
        rw [hw]
        rcases List.mem_append.mp hwmem with hm | hm
        · exact ⟨w, List.mem_append_left _ hm, hwex⟩
        · rcases List.mem_cons.mp hm with hm2 | hm2
          · rw [hm2] at hwex
            exact WStatus.noConfusion hwex
          · exact ⟨w, List.mem_append_right _ (List.mem_cons_of_mem _ hm2), hwex⟩
      · intro hne hall
        have hmem : WStatus.idle ∈ w1 ++ WStatus.idle :: w2 :=
          List.mem_append_right _ (List.mem_cons_self _ _)
        exact WStatus.noConfusion (hall _ hmem)
  | exit w1 w2 hw hstop hq =>
      refine ⟨henq, ?_, ?_, fun _ => hstop, fun _ _ => hq⟩
      · rw [← hwlen, hw]
        simp
      · intro t2
        have hbase := hcount t2
        rw [hw] at hbase
        simp only [busyTasks, List.filterMap_append, List.filterMap_cons,
          List.count_append, List.count_cons] at hbase ⊢
        simpa using hbase
  | setStop =>
      exact ⟨henq, hwlen, hcount, fun _ => rfl, hterm⟩

lemma poolReachable_invariant (n : Nat) (s : Pool)
    (h : PoolReachable n s) : PoolInvariant n s := by
  induction h with
  | refl => exact poolInit_invariant n
  | tail hsteps hstep ih => exact poolStep_preserves n _ _ hstep ih

/-- C10: in any interleaved execution of the asset thread pool with at least
one worker, once every worker has exited (the state `Shutdown`'s joins
observe before returning), every task that was ever accepted by `Enqueue`
appears exactly once in the executed history — the executed history is a
permutation of the enqueued tasks, so no queued work is dropped by setting
the stop flag; moreover a worker exits its loop only from a state where the
stop flag is set and the task queue is empty. -/
theorem C10_pool_tasks_exactly_once (n : Nat) (s : Pool)
    (hn : 1 ≤ n) (hreach : PoolReachable n s)
    (hterm : ∀ w ∈ s.workers, w = WStatus.exited) :
    (∀ t ∈ s.enqueued, s.executed.count t = 1) ∧
    s.executed.Perm s.enqueued ∧
    (∀ s1 s2 : Pool, PoolStep s1 s2 →
      s2.workers.count WStatus.exited ≠ s1.workers.count WStatus.exited →
      s1.stop = true ∧ s1.queue = []) := by
  obtain ⟨henq, hwlen, hcount, -, hterm2⟩ := poolReachable_invariant n s hreach
  have hne : s.workers ≠ [] := by
    intro hnil
    rw [hnil] at hwlen
    simp at hwlen
    omega
  have hqnil : s.queue = [] := hterm2 hne hterm
  have hbusy : busyTasks s.workers = [] := by
    apply List.filterMap_eq_nil_iff.mpr
    intro w hw
    rw [hterm w hw]
  have hcnt : ∀ t, s.executed.count t = s.enqueued.count t := by
    intro t
    have := hcount t
    rw [hqnil, hbusy] at this
    simp at this
    omega
  refine ⟨?_, List.perm_iff_count.mpr hcnt, ?_⟩
  · intro t ht
    rw [hcnt t]
    exact List.count_eq_one_of_mem (henq ▸ List.nodup_range s.nextId) ht
  · intro s1 s2 hstep hdiff
    cases hstep with
    | enqueue h => exact absurd rfl hdiff
    | pick w1 w2 t rest hw hq =>
        rw [hw] at hdiff
        simp [List.count_append, List.count_cons] at hdiff
    | finish w1 w2 t hw =>
        rw [hw] at hdiff
        simp [List.count_append, List.count_cons] at hdiff
    | exit w1 w2 hw hstop hq => exact ⟨hstop, hq⟩
    | setStop => exact absurd rfl hdiff

/-- C10 witness: with one worker, the trace enqueue → Shutdown sets stop →
pick → execute → exit reaches an all-exited state in which the single
enqueued task was executed exactly once. -/
theorem C10_pool_witness :
    (∀ w ∈ [WStatus.exited], w = WStatus.exited) ∧
    ([0] : List Nat).count 0 = 1 := by
  have h01 : PoolStep (Pool.init 1)
      ⟨false, [0], [WStatus.idle], [0], [], 1⟩ :=
    PoolStep.enqueue (Pool.init 1) rfl
  have h12 : PoolStep ⟨false, [0], [WStatus.idle], [0], [], 1⟩
      ⟨true, [0], [WStatus.idle], [0], [], 1⟩ :=
    PoolStep.setStop _
  have h23 : PoolStep ⟨true, [0], [WStatus.idle], [0], [], 1⟩
      ⟨true, [], [WStatus.busy 0], [0], [], 1⟩ :=
    PoolStep.pick _ [] [] 0 [] rfl rfl
  have h34 : PoolStep ⟨true, [], [WStatus.busy 0], [0], [], 1⟩
      ⟨true, [], [WStatus.idle], [0], [0], 1⟩ :=
    PoolStep.finish _ [] [] 0 rfl
  have h45 : PoolStep ⟨true, [], [WStatus.idle], [0], [0], 1⟩
      ⟨true, [], [WStatus.exited], [0], [0], 1⟩ :=
    PoolStep.exit _ [] [] rfl rfl rfl
  have hreach : PoolReachable 1 ⟨true, [], [WStatus.exited], [0], [0], 1⟩ :=
    Relation.ReflTransGen.tail
      (Relation.ReflTransGen.tail
        (Relation.ReflTransGen.tail
          (Relation.ReflTransGen.tail
            (Relation.ReflTransGen.tail Relation.ReflTransGen.refl h01)
            h12) h23) h34) h45
  have hterm : ∀ w ∈ [WStatus.exited], w = WStatus.exited := by decide
  have hmain := C10_pool_tasks_exactly_once 1
    ⟨true, [], [WStatus.exited], [0], [0], 1⟩ (le_refl 1) hreach hterm
  exact ⟨hterm, hmain.1 0 (by decide)⟩

end AeroBoar
